import Mathlib

/-!
Formal model of the Bank Customer Churn dashboard script (`app.py`).

The script is a straight-line Streamlit program: it creates a country
selector, loads a per-country CSV through a memoized loader, checks for the
required `Exited` column (stopping with an error message when absent), and
then emits metrics, a fixed sequence of column-gated charts, and a templated
insights panel.

Modelling conventions:
* A dataframe (`DF`) is a list of column names plus rows; each row is an
  association list from column name to cell value.  Cell values (`Val`) are
  either rationals (modelling pandas numeric cells; the claims under study
  involve only exact arithmetic) or strings (categorical cells).
* Each Streamlit output call is modelled as a `Sect` value carrying the data
  payload that determines the rendered output; the run of the script is the
  list of emitted sections together with an optional fault (`renderApp`).
  An unhandled pandas exception (KeyError on a missing column, ValueError
  from `idxmax` on an empty series) truncates the trace at the point it is
  raised, exactly as an unhandled Python exception would.
* `pd.value_counts` is modelled without its descending count sort (the
  properties proved are order-insensitive); `idxmax` is modelled directly as
  first-maximum selection, `None` denoting the ValueError on an empty
  series.  `groupby(...).mean()` group keys are produced in first-use order
  rather than pandas' sorted order; the claims proved about the aggregation
  are order-insensitive.
* Python's `f"{x:.2f}"` float formatting is modelled on rationals with
  round-half-to-even at two decimals.
-/

namespace Churn

/-- A cell value: a rational number (pandas numeric) or a string (categorical). -/
inductive Val where
  | num (q : ℚ)
  | str (s : String)
deriving DecidableEq, Repr

/-- One row: an association list from column name to cell value. -/
abbrev Row := List (String × Val)

/-- A dataframe: the column names and the rows. -/
structure DF where
  cols : List String
  rows : List Row
deriving DecidableEq, Repr

/-- Well-formedness: every row carries exactly the dataframe's columns, in order. -/
def DF.WF (df : DF) : Prop := ∀ r ∈ df.rows, r.map Prod.fst = df.cols

instance (df : DF) : Decidable df.WF := by
  unfold DF.WF; infer_instance

/-- The values of one column, in row order (`df[c]`). -/
def colVals (df : DF) (c : String) : List Val :=
  df.rows.filterMap (fun r => List.lookup c r)

/-- The numeric cells of a column's value list. -/
def numsOf (l : List Val) : List ℚ :=
  l.filterMap (fun v => match v with | .num q => some q | .str _ => none)

/-- Series mean: `none` models pandas' NaN on an empty series. -/
def meanOpt (l : List ℚ) : Option ℚ :=
  if l = [] then none else some (l.sum / l.length)

/-- Mean of a list of rationals (used only on nonempty groups). -/
def listMean (l : List ℚ) : ℚ := l.sum / l.length

/-- Drop one column from a dataframe (`df.drop(columns=[c])` for a present `c`;
identity on the rows' other cells, and on everything if `c` is absent). -/
def dropCol (c : String) (df : DF) : DF :=
  ⟨df.cols.filter (fun c0 => !(c0 == c)),
   df.rows.map (fun r => r.filter (fun p => !(p.1 == c)))⟩

/-- The churned sub-dataframe `df[df['Exited'] == 1]`. -/
def churnedOf (df : DF) : DF :=
  ⟨df.cols, df.rows.filter (fun r => List.lookup "Exited" r == some (.num 1))⟩

/-- The retained sub-dataframe `df[df['Exited'] == 0]`. -/
def retainedOf (df : DF) : DF :=
  ⟨df.cols, df.rows.filter (fun r => List.lookup "Exited" r == some (.num 0))⟩

/-- `value_counts()`: each distinct value with its number of occurrences.
(The pandas descending-count sort is omitted; all properties proved about it
are order-insensitive.) -/
def valueCounts (l : List Val) : List (Val × Nat) :=
  l.dedup.map (fun v => (v, l.count v))

/-- `value_counts().idxmax()`: a value attaining the maximum count (the first
maximum); `none` models the ValueError raised on an empty series. -/
def idxmaxVC (l : List Val) : Option Val :=
  ((valueCounts l).foldl
    (fun acc p =>
      match acc with
      | none => some p
      | some q => if q.2 < p.2 then some p else some q) none).map Prod.fst

/-- Python `str` of a cell value, as interpolated into the insights template. -/
def Val.display : Val → String
  | .num q => toString q
  | .str s => s

/-! ### Two-decimal formatting (`f"{x:.2f}"`) -/

/-- Round to the nearest integer, ties to even (the rounding used by Python
float formatting, modelled on exact rationals). -/
def roundHalfEven (q : ℚ) : ℤ :=
  let f := ⌊q⌋
  if q - f < 1/2 then f
  else if (1:ℚ)/2 < q - f then f + 1
  else if f % 2 = 0 then f else f + 1

/-- Two-digit zero-padded decimal string of a number below 100. -/
def twoDigits (n : ℕ) : String :=
  if n < 10 then "0" ++ toString n else toString n

/-- The string `f"{q:.2f}"`. -/
def fmt2 (q : ℚ) : String :=
  let n := roundHalfEven (q * 100)
  (if n < 0 then "-" else "") ++ toString (n.natAbs / 100) ++ "." ++ twoDigits (n.natAbs % 100)

/-! ### The memoized loader (`load_country_data` under `@st.cache_data`) -/

/-- The `file_map` dictionary of `load_country_data`. -/
def file_map : List (String × String) :=
  [("France", "france_df.csv"), ("Germany", "germany_df.csv"), ("Spain", "spain_df.csv")]

/-- Body of `load_country_data`: read the country's CSV (the reading itself is
an abstract function `readCSV` from file name to table) and drop the
incidental index columns `Unnamed: 0` and `RowNumber` when present.
`none` models the KeyError on a country outside `file_map`. -/
def load_country_data (readCSV : String → DF) (selected_country : String) : Option DF :=
  (file_map.lookup selected_country).map
    (fun f => dropCol "RowNumber" (dropCol "Unnamed: 0" (readCSV f)))

/-- The `st.cache_data` store: one memoized table per country argument. -/
structure CacheSt where
  entries : List (String × DF)
deriving DecidableEq, Repr

/-- A call of the memoized loader: result, updated cache, and the number of
file reads performed by this call (0 on a cache hit, 1 on a miss). -/
def cachedLoad (readCSV : String → DF) (st : CacheSt) (c : String) :
    Option DF × CacheSt × ℕ :=
  match st.entries.lookup c with
  | some df => (some df, st, 0)
  | none =>
    match load_country_data readCSV c with
    | some df => (some df, ⟨(c, df) :: st.entries⟩, 1)
    | none => (none, st, 1)

/-! ### The render trace -/

/-- A fault raised by a pandas call: an unhandled Python exception. -/
inductive Fault where
  | keyError (col : String)
  | valueError (msg : String)
deriving DecidableEq, Repr

/-- One rendered output element, carrying the data that determines its visual
content.  Chart constructors carry the column values (respectively the
aggregate) the chart is drawn from; `faqExpander i` stands for the `i`-th
static FAQ expander (its constant text is not needed by any property). -/
inductive Sect where
  | title (s : String)
  | sidebarTitle (s : String)
  | selectbox (label : String) (options : List String)
  | errorMsg (s : String)
  | md (s : String)
  | dataframePreview (rows : List Row)
  | metricTotal (n : ℕ)
  | metricChurned (total : ℚ)
  | metricRate (s : String)
  | chartChurnDist (exited : List Val)
  | chartGender (gender exited : List Val)
  | chartAgeBox (exited age : List Val)
  | chartCredit (credit exited : List Val)
  | chartSalaryBox (agegroup salary : List Val)
  | chartSalaryBar (grouped : List (Val × Val × ℚ))
  | chartPie (values : List ℕ) (names : List Val)
  | chartTenure (tenure exited : List Val)
  | chartCSC (csc exited : List Val)
  | insights (country rate : String) (avgChurned avgRetained : Option ℚ)
      (topCard commonAge : String) (color : String)
  | linkButton (url : String)
  | faqExpander (i : ℕ)
deriving DecidableEq, Repr

/-- Everything emitted before the `Exited` check: page title, sidebar title,
and the two (duplicated) country select boxes of lines 13 and 31. -/
def preSections : List Sect :=
  [.title "🏦 Bank Customer Churn Dashboard",
   .sidebarTitle "Select Country",
   .selectbox "Choose a country" ["France", "Germany", "Spain"],
   .selectbox "Choose a country" ["France", "Germany", "Spain"]]

/-- The `st.error` text shown when `Exited` is missing. -/
def exitedErrorText : String := "The expected column `Exited` is not found in the dataset."

/-- Dataset overview: markdown header and `df.head()` (first five rows). -/
def overviewSects (country : String) (df : DF) : List Sect :=
  [.md ("### Dataset Overview - " ++ country), .dataframePreview (df.rows.take 5)]

/-- The churn-rate string `f"{df['Exited'].mean() * 100:.2f}"` (`"nan"` when
the table is empty, as Python formats NaN). -/
def rateStr (df : DF) : String :=
  match meanOpt (numsOf (colVals df "Exited")) with
  | some m => fmt2 (m * 100)
  | none => "nan"

/-- The three `st.metric` outputs: `len(df)`, `df['Exited'].sum()`, churn rate. -/
def metricSects (df : DF) : List Sect :=
  [.metricTotal df.rows.length,
   .metricChurned (numsOf (colVals df "Exited")).sum,
   .metricRate (rateStr df)]

/-- Plot 1, the unconditional churn-distribution histogram. -/
def churnDistSect (df : DF) : List Sect :=
  [.chartChurnDist (colVals df "Exited")]

/-- Plot 2, gated on the `Gender` column. -/
def genderSect (df : DF) : List Sect :=
  if "Gender" ∈ df.cols then
    [.chartGender (colVals df "Gender") (colVals df "Exited")]
  else []

/-- Plot 3, gated on the `Age` column. -/
def ageSect (df : DF) : List Sect :=
  if "Age" ∈ df.cols then
    [.chartAgeBox (colVals df "Exited") (colVals df "Age")]
  else []

/-- Plot 4, gated on the `CreditScore` column. -/
def creditSect (df : DF) : List Sect :=
  if "CreditScore" ∈ df.cols then
    [.chartCredit (colVals df "CreditScore") (colVals df "Exited")]
  else []

/-- The salary-by-age-group box plot, gated on `AgeGroup` and `EstimatedSalary`. -/
def salaryBoxSect (df : DF) : List Sect :=
  if "AgeGroup" ∈ df.cols ∧ "EstimatedSalary" ∈ df.cols then
    [.md "### Estimated Salary by Age Group (Box Plot)",
     .chartSalaryBox (colVals df "AgeGroup") (colVals df "EstimatedSalary")]
  else []

/-- The distinct (AgeGroup, Card Type) pairs occurring in the rows, in
first-use order. -/
def groupKeys (df : DF) : List (Val × Val) :=
  (df.rows.filterMap (fun r =>
    match List.lookup "AgeGroup" r, List.lookup "Card Type" r with
    | some a, some c => some (a, c)
    | _, _ => none)).dedup

/-- The rows belonging to one (AgeGroup, Card Type) group. -/
def rowsForPair (df : DF) (a c : Val) : List Row :=
  df.rows.filter (fun r =>
    (List.lookup "AgeGroup" r == some a) && (List.lookup "Card Type" r == some c))

/-- The `EstimatedSalary` cells of one group. -/
def groupSalaries (df : DF) (a c : Val) : List ℚ :=
  numsOf ((rowsForPair df a c).filterMap (fun r => List.lookup "EstimatedSalary" r))

/-- `df.groupby(['AgeGroup', 'Card Type'])['EstimatedSalary'].mean().reset_index()`:
one output row per distinct key pair, holding the group's mean salary.  The
column selection raises a KeyError when `EstimatedSalary` is absent. -/
def grouped_df (df : DF) : Except Fault (List (Val × Val × ℚ)) :=
  if "EstimatedSalary" ∈ df.cols then
    .ok ((groupKeys df).map (fun p => (p.1, p.2, listMean (groupSalaries df p.1 p.2))))
  else .error (.keyError "EstimatedSalary")

/-- The grouped-bar section.  Note the source's gate checks only `AgeGroup`
and `Card Type`; `EstimatedSalary` is used inside without being checked. -/
def barSect (df : DF) : Except Fault (List Sect) :=
  if "AgeGroup" ∈ df.cols ∧ "Card Type" ∈ df.cols then
    match grouped_df df with
    | .ok g => .ok [.md "### Avg Estimated Salary by Age Group & Card Type",
                    .chartSalaryBar g]
    | .error f => .error f
  else .ok []

/-- `rename({0: 'Retained', 1: 'Churned'})` applied to a pie label. -/
def renameRetChurn (v : Val) : Val :=
  if v = .num 0 then .str "Retained" else if v = .num 1 then .str "Churned" else v

/-- The unconditional pie chart of `df['Exited'].value_counts()` with the
labels 0 and 1 renamed. -/
def pieSects (df : DF) : List Sect :=
  let vc := valueCounts (colVals df "Exited")
  [.md "### Churn Breakdown",
   .chartPie (vc.map Prod.snd) (vc.map (fun p => renameRetChurn p.1))]

/-- The tenure histogram, gated on the `Tenure` column. -/
def tenureSect (df : DF) : List Sect :=
  if "Tenure" ∈ df.cols then
    [.md "### Churn by Tenure",
     .chartTenure (colVals df "Tenure") (colVals df "Exited")]
  else []

/-- The credit-score-category histogram, gated on `CreditScoreCategory`. -/
def cscSect (df : DF) : List Sect :=
  if "CreditScoreCategory" ∈ df.cols then
    [.md "### Churn by Credit Score Category",
     .chartCSC (colVals df "CreditScoreCategory") (colVals df "Exited")]
  else []

/-- `country_heading_colors` of the insights template. -/
def country_heading_colors : List (String × String) :=
  [("France", "#0055A4"), ("Germany", "#D00000"), ("Spain", "#FFC400")]

/-- `country_heading_colors.get(country, "#FFD700")`. -/
def headingColor (c : String) : String :=
  (country_heading_colors.lookup c).getD "#FFD700"

/-- `sub['EstimatedSalary'].mean()`: a KeyError when the column is absent
(the source has no guard here), otherwise the mean (NaN on an empty subset). -/
def avgSalaryOf (sub : DF) : Except Fault (Option ℚ) :=
  if "EstimatedSalary" ∈ sub.cols then
    .ok (meanOpt (numsOf (colVals sub "EstimatedSalary")))
  else .error (.keyError "EstimatedSalary")

/-- `sub[c].value_counts().idxmax() if c in sub else 'N/A'`: the placeholder
guard covers only column absence; with the column present and the subset
empty, `idxmax` raises a ValueError. -/
def topCategory (sub : DF) (c : String) : Except Fault String :=
  if c ∈ sub.cols then
    match idxmaxVC (colVals sub c) with
    | some v => .ok v.display
    | none => .error (.valueError "attempt to get argmax of an empty sequence")
  else .ok "N/A"

/-- The insights computation (source lines 128–184), in evaluation order:
churned/retained split, the two unguarded salary means, then the two guarded
most-frequent-category fields, assembled into the templated panel.  The
first raised exception propagates. -/
def insightsSect (country : String) (df : DF) : Except Fault Sect :=
  match avgSalaryOf (churnedOf df) with
  | .error f => .error f
  | .ok avgC =>
    match avgSalaryOf (retainedOf df) with
    | .error f => .error f
    | .ok avgR =>
      match topCategory (churnedOf df) "Card Type" with
      | .error f => .error f
      | .ok topCard =>
        match topCategory (churnedOf df) "AgeGroup" with
        | .error f => .error f
        | .ok commonAge =>
          .ok (.insights country (rateStr df) avgC avgR topCard commonAge
                (headingColor country))

/-- Everything after the insights panel: divider, link buttons, FAQ expanders. -/
def postSections : List Sect :=
  [.md "---", .md "## Connect with Me",
   .linkButton "http://www.linkedin.com/in/neha-sharma-09835724b",
   .linkButton "https://github.com/NehaSharma-26",
   .md "## Frequently Asked Questions",
   .faqExpander 0, .faqExpander 1, .faqExpander 2, .faqExpander 3]

/-- The first stretch of the main path, up to the point the grouped-bar
aggregation may fault. -/
def secs1 (country : String) (df : DF) : List Sect :=
  preSections ++ overviewSects country df ++ metricSects df ++ churnDistSect df
    ++ genderSect df ++ ageSect df ++ creditSect df ++ salaryBoxSect df

/-- One full run of the script on a loaded table: the emitted sections and
the fault, if any, that truncated the run.  When `Exited` is absent the
script shows the error and `st.stop()`s (not a fault: a clean halt). -/
def renderApp (country : String) (df : DF) : List Sect × Option Fault :=
  if "Exited" ∈ df.cols then
    match barSect df with
    | .error f => (secs1 country df, some f)
    | .ok bs =>
      let s2 := secs1 country df ++ bs ++ pieSects df ++ tenureSect df ++ cscSect df
      match insightsSect country df with
      | .error f => (s2, some f)
      | .ok ins => (s2 ++ [ins] ++ postSections, none)
  else (preSections ++ [.errorMsg exitedErrorText], none)

/-! ### Section discriminators -/

/-- True exactly on select-box widgets. -/
def Sect.isSelectbox : Sect → Bool
  | .selectbox _ _ => true | _ => false

/-- True exactly on the gender chart. -/
def Sect.isGender : Sect → Bool
  | .chartGender _ _ => true | _ => false

/-- True exactly on the age box plot. -/
def Sect.isAgeBox : Sect → Bool
  | .chartAgeBox _ _ => true | _ => false

/-- True exactly on the credit-score histogram. -/
def Sect.isCredit : Sect → Bool
  | .chartCredit _ _ => true | _ => false

/-- True exactly on the salary box plot. -/
def Sect.isSalaryBox : Sect → Bool
  | .chartSalaryBox _ _ => true | _ => false

/-- True exactly on the grouped salary bar chart. -/
def Sect.isSalaryBar : Sect → Bool
  | .chartSalaryBar _ => true | _ => false

/-- True exactly on the pie chart. -/
def Sect.isPie : Sect → Bool
  | .chartPie _ _ => true | _ => false

/-- True exactly on the tenure histogram. -/
def Sect.isTenure : Sect → Bool
  | .chartTenure _ _ => true | _ => false

/-- True exactly on the credit-score-category histogram. -/
def Sect.isCSC : Sect → Bool
  | .chartCSC _ _ => true | _ => false

/-- True exactly on the insights panel. -/
def Sect.isInsights : Sect → Bool
  | .insights _ _ _ _ _ _ _ => true | _ => false

/-- True exactly on the three metric outputs. -/
def Sect.isMetric : Sect → Bool
  | .metricTotal _ | .metricChurned _ | .metricRate _ => true | _ => false

/-- True exactly on chart outputs (of any of the nine kinds). -/
def Sect.isChart : Sect → Bool
  | .chartChurnDist _ | .chartGender _ _ | .chartAgeBox _ _ | .chartCredit _ _
  | .chartSalaryBox _ _ | .chartSalaryBar _ | .chartPie _ _ | .chartTenure _ _
  | .chartCSC _ _ => true
  | _ => false

/-- True on the sections compared across the Tenure frame property: metrics,
every chart other than the tenure chart, and the insights panel. -/
def Sect.keptNonTenure : Sect → Bool
  | .metricTotal _ | .metricChurned _ | .metricRate _ | .chartChurnDist _
  | .chartGender _ _ | .chartAgeBox _ _ | .chartCredit _ _ | .chartSalaryBox _ _
  | .chartSalaryBar _ | .chartPie _ _ | .chartCSC _ _
  | .insights _ _ _ _ _ _ _ => true
  | _ => false

/-- Extract the churn-rate metric string, if this section is it. -/
def Sect.rateOf : Sect → Option String
  | .metricRate s => some s | _ => none

/-! ### Helper lemmas -/

/-- Looking up a key other than the dropped one is unaffected by dropping. -/
theorem lookup_filter_ne (t c : String) (h : c ≠ t) (r : Row) :
    List.lookup c (r.filter (fun p => !(p.1 == t))) = List.lookup c r := by
  induction r with
  | nil => rfl
  | cons p r ih =>
    obtain ⟨k, v⟩ := p
    by_cases hp : k = t
    · have hct : (c == t) = false := by simpa using h
      simp [List.filter_cons, hp, List.lookup, hct, ih]
    · have hkt : (k == t) = false := by simpa using hp
      cases hcp : c == k with
      | true => simp [List.filter_cons, hkt, List.lookup, hcp]
      | false => simp [List.filter_cons, hkt, List.lookup, hcp, ih]

/-- Column membership after dropping a column. -/
theorem mem_cols_dropCol (t c : String) (df : DF) :
    c ∈ (dropCol t df).cols ↔ c ∈ df.cols ∧ c ≠ t := by
  simp [dropCol, List.mem_filter]

/-- Values of a surviving column are unaffected by dropping another column. -/
theorem colVals_dropCol (t c : String) (h : c ≠ t) (df : DF) :
    colVals (dropCol t df) c = colVals df c := by
  simp only [colVals, dropCol, List.filterMap_map]
  exact List.filterMap_congr (fun r _ => by
    simp only [Function.comp_apply, lookup_filter_ne t c h r])

/-- Dropping a column keeps the number of rows. -/
theorem rows_length_dropCol (t : String) (df : DF) :
    (dropCol t df).rows.length = df.rows.length := by
  simp [dropCol]

/-- The churned split commutes with dropping a column other than `Exited`. -/
theorem churnedOf_dropCol (t : String) (h : "Exited" ≠ t) (df : DF) :
    churnedOf (dropCol t df) = dropCol t (churnedOf df) := by
  unfold churnedOf dropCol
  simp only [List.filter_map]
  congr 2
  exact List.filter_congr (fun r _ => by
    simp only [Function.comp_apply, lookup_filter_ne t "Exited" h r])

/-- The retained split commutes with dropping a column other than `Exited`. -/
theorem retainedOf_dropCol (t : String) (h : "Exited" ≠ t) (df : DF) :
    retainedOf (dropCol t df) = dropCol t (retainedOf df) := by
  unfold retainedOf dropCol
  simp only [List.filter_map]
  congr 2
  exact List.filter_congr (fun r _ => by
    simp only [Function.comp_apply, lookup_filter_ne t "Exited" h r])

/-- A key among a row's columns always has a value. -/
theorem lookup_isSome_of_mem_keys (c : String) (r : Row)
    (h : c ∈ r.map Prod.fst) : ∃ v, List.lookup c r = some v := by
  induction r with
  | nil => simp at h
  | cons p r ih =>
    obtain ⟨k, w⟩ := p
    simp only [List.map_cons, List.mem_cons] at h
    cases hcp : c == k with
    | true => exact ⟨w, by simp [List.lookup, hcp]⟩
    | false =>
      rcases h with h | h
      · exact absurd (beq_iff_eq.mpr h) (by simp [hcp])
      · obtain ⟨v, hv⟩ := ih h
        exact ⟨v, by simp [List.lookup, hcp, hv]⟩

/-- When every row resolves the key, `filterMap` of the lookups keeps all rows. -/
theorem length_filterMap_lookup (rows : List Row) (c : String)
    (h : ∀ r ∈ rows, ∃ v, List.lookup c r = some v) :
    (rows.filterMap (fun r => List.lookup c r)).length = rows.length := by
  induction rows with
  | nil => rfl
  | cons r rs ih =>
    obtain ⟨v, hv⟩ := h r (by simp)
    simp [List.filterMap_cons, hv, ih (fun r' hr' => h r' (by simp [hr']))]

/-- In a well-formed table a present column has one value per row. -/
theorem length_colVals (df : DF) (c : String) (hwf : df.WF) (hc : c ∈ df.cols) :
    (colVals df c).length = df.rows.length := by
  unfold colVals
  exact length_filterMap_lookup df.rows c (fun r hr =>
    lookup_isSome_of_mem_keys c r ((hwf r hr) ▸ hc))

/-- Counting a value among looked-up cells counts the rows holding it. -/
theorem count_filterMap_lookup (rows : List Row) (c : String) (v : Val) :
    ((rows.filterMap (fun r => List.lookup c r)).count v) =
      (rows.filter (fun r => List.lookup c r == some v)).length := by
  induction rows with
  | nil => rfl
  | cons r rs ih =>
    cases hv : List.lookup c r with
    | none => simp [List.filterMap_cons, List.filter_cons, hv, ih]
    | some w =>
      by_cases hw : w = v
      · subst hw
        simp [List.filterMap_cons, List.filter_cons, hv, List.count_cons, ih]
      · have : (some w == some v) = false := by simp [hw]
        simp [List.filterMap_cons, List.filter_cons, hv, this, List.count_cons, hw, ih]

/-- Unfolding `numsOf` over a numeric head. -/
theorem numsOf_cons_num (q : ℚ) (vs : List Val) :
    numsOf (.num q :: vs) = q :: numsOf vs := rfl

/-- Unfolding `numsOf` over a string head. -/
theorem numsOf_cons_str (s : String) (vs : List Val) :
    numsOf (.str s :: vs) = numsOf vs := rfl

/-- Over 0/1 cells, the numeric sum is the number of ones. -/
theorem sum_numsOf_01 (l : List Val) (h : ∀ v ∈ l, v = .num 0 ∨ v = .num 1) :
    (numsOf l).sum = (l.count (.num 1) : ℚ) := by
  induction l with
  | nil => simp [numsOf]
  | cons v vs ih =>
    have hv := h v (by simp)
    have ih' := ih (fun w hw => h w (by simp [hw]))
    rcases hv with hv | hv
    · subst hv; simp [numsOf_cons_num, List.count_cons, ih']
    · subst hv; simp [numsOf_cons_num, List.count_cons, ih']; ring

/-- Over 0/1 cells, every cell is numeric. -/
theorem length_numsOf_01 (l : List Val) (h : ∀ v ∈ l, v = .num 0 ∨ v = .num 1) :
    (numsOf l).length = l.length := by
  induction l with
  | nil => rfl
  | cons v vs ih =>
    have hv := h v (by simp)
    have ih' := ih (fun w hw => h w (by simp [hw]))
    rcases hv with hv | hv <;> subst hv <;> simp [numsOf_cons_num, ih']

/-! ### Trace decomposition -/

/-- Push `any` through a column-presence gate. -/
theorem any_ite (D : Sect → Bool) (G : Prop) [Decidable G] (l : List Sect) :
    ((if G then l else []).any D) = if G then l.any D else false := by
  split <;> rfl

/-- Push `filter` through a column-presence gate. -/
theorem filter_ite (p : Sect → Bool) (G : Prop) [Decidable G] (l : List Sect) :
    (if G then l else []).filter p = if G then l.filter p else [] := by
  split <;> rfl

/-- Push `filterMap` through a column-presence gate. -/
theorem filterMap_ite {β : Type} (f : Sect → Option β) (G : Prop) [Decidable G]
    (l : List Sect) :
    (if G then l else []).filterMap f = if G then l.filterMap f else [] := by
  split <;> rfl

/-- The two possible successful outputs of the grouped-bar step. -/
theorem barSect_ok_shape (df : DF) (bs : List Sect) (h : barSect df = .ok bs) :
    bs = [] ∨ ∃ g, grouped_df df = .ok g ∧
      bs = [.md "### Avg Estimated Salary by Age Group & Card Type",
            .chartSalaryBar g] := by
  unfold barSect at h
  split at h
  · cases hg : grouped_df df with
    | ok g =>
      rw [hg] at h
      cases h
      exact .inr ⟨g, rfl, rfl⟩
    | error f => rw [hg] at h; cases h
  · cases h
    exact .inl rfl

/-- A successful insights step always produces the templated panel. -/
theorem insightsSect_ok_shape (c : String) (df : DF) (s : Sect)
    (h : insightsSect c df = .ok s) :
    ∃ aC aR tc ca, s = .insights c (rateStr df) aC aR tc ca (headingColor c) := by
  unfold insightsSect at h
  cases h1 : avgSalaryOf (churnedOf df) with
  | error f => rw [h1] at h; cases h
  | ok aC =>
    rw [h1] at h
    cases h2 : avgSalaryOf (retainedOf df) with
    | error f => rw [h2] at h; cases h
    | ok aR =>
      rw [h2] at h
      cases h3 : topCategory (churnedOf df) "Card Type" with
      | error f => rw [h3] at h; cases h
      | ok tc =>
        rw [h3] at h
        cases h4 : topCategory (churnedOf df) "AgeGroup" with
        | error f => rw [h4] at h; cases h
        | ok ca =>
          rw [h4] at h
          cases h
          exact ⟨aC, aR, tc, ca, rfl⟩

/-- The three possible run shapes on a table that has the `Exited` column:
truncated at the grouped-bar fault, truncated at the insights fault, or
complete. -/
theorem renderApp_cases (country : String) (df : DF) (hE : "Exited" ∈ df.cols) :
    (∃ f, barSect df = .error f ∧ renderApp country df = (secs1 country df, some f))
  ∨ (∃ bs, barSect df = .ok bs ∧
      ((∃ f, insightsSect country df = .error f ∧
          renderApp country df =
            (secs1 country df ++ bs ++ pieSects df ++ tenureSect df ++ cscSect df,
             some f))
     ∨ (∃ ins, insightsSect country df = .ok ins ∧
          renderApp country df =
            (secs1 country df ++ bs ++ pieSects df ++ tenureSect df ++ cscSect df
              ++ [ins] ++ postSections,
             none)))) := by
  unfold renderApp
  rw [if_pos hE]
  cases hbar : barSect df with
  | error f => exact .inl ⟨f, rfl, rfl⟩
  | ok bs =>
    cases hins : insightsSect country df with
    | error f => exact .inr ⟨bs, rfl, .inl ⟨f, rfl, rfl⟩⟩
    | ok ins => exact .inr ⟨bs, rfl, .inr ⟨ins, rfl, rfl⟩⟩

/-- The churned subtable has the same columns. -/
@[simp] theorem churnedOf_cols (df : DF) : (churnedOf df).cols = df.cols := rfl

/-- The retained subtable has the same columns. -/
@[simp] theorem retainedOf_cols (df : DF) : (retainedOf df).cols = df.cols := rfl

/-- A successful grouped aggregation needs the salary column. -/
theorem grouped_df_ok_mem (df : DF) (g : List (Val × Val × ℚ))
    (h : grouped_df df = .ok g) : "EstimatedSalary" ∈ df.cols := by
  by_contra hn
  unfold grouped_df at h
  rw [if_neg hn] at h
  cases h

/-- When the gate passes but the salary column is missing, the grouped-bar
step raises the KeyError. -/
theorem barSect_error_of (df : DF)
    (h1 : "AgeGroup" ∈ df.cols ∧ "Card Type" ∈ df.cols)
    (h2 : "EstimatedSalary" ∉ df.cols) :
    barSect df = .error (.keyError "EstimatedSalary") := by
  unfold barSect grouped_df
  rw [if_pos h1, if_neg h2]

/-- The grouped-bar step only faults in the gate-passes, salary-missing case. -/
theorem barSect_error_shape (df : DF) (f : Fault) (h : barSect df = .error f) :
    ("AgeGroup" ∈ df.cols ∧ "Card Type" ∈ df.cols) ∧ "EstimatedSalary" ∉ df.cols
      ∧ f = .keyError "EstimatedSalary" := by
  by_cases hgc : ("AgeGroup" ∈ df.cols ∧ "Card Type" ∈ df.cols)
  · by_cases hES : "EstimatedSalary" ∈ df.cols
    · unfold barSect grouped_df at h
      rw [if_pos hgc, if_pos hES] at h
      cases h
    · unfold barSect grouped_df at h
      rw [if_pos hgc, if_neg hES] at h
      cases h
      exact ⟨hgc, hES, rfl⟩
  · unfold barSect at h
    rw [if_neg hgc] at h
    cases h

/-- The gate/aggregation split of a successful grouped-bar step. -/
theorem barSect_guard_shape (df : DF) (bs : List Sect) (h : barSect df = .ok bs) :
    (¬("AgeGroup" ∈ df.cols ∧ "Card Type" ∈ df.cols) ∧ bs = [])
  ∨ (("AgeGroup" ∈ df.cols ∧ "Card Type" ∈ df.cols) ∧ "EstimatedSalary" ∈ df.cols
      ∧ ∃ g, grouped_df df = .ok g ∧
        bs = [.md "### Avg Estimated Salary by Age Group & Card Type",
              .chartSalaryBar g]) := by
  by_cases hgc : ("AgeGroup" ∈ df.cols ∧ "Card Type" ∈ df.cols)
  · unfold barSect at h
    rw [if_pos hgc] at h
    cases hg : grouped_df df with
    | ok g =>
      rw [hg] at h
      cases h
      exact .inr ⟨hgc, grouped_df_ok_mem df g hg, g, rfl, rfl⟩
    | error f => rw [hg] at h; cases h
  · unfold barSect at h
    rw [if_neg hgc] at h
    cases h
    exact .inl ⟨hgc, rfl⟩

/-- When the salary column exists the grouped-bar step cannot fault. -/
theorem barSect_ok_of_ES (df : DF) (hES : "EstimatedSalary" ∈ df.cols) :
    ∃ bs, barSect df = .ok bs := by
  unfold barSect grouped_df
  by_cases hgc : ("AgeGroup" ∈ df.cols ∧ "Card Type" ∈ df.cols)
  · rw [if_pos hgc, if_pos hES]
    exact ⟨_, rfl⟩
  · rw [if_neg hgc]
    exact ⟨[], rfl⟩

/-- With no salary column, the insights computation raises the KeyError at
its very first field. -/
theorem insightsSect_error_ES (c : String) (df : DF)
    (h : "EstimatedSalary" ∉ df.cols) :
    insightsSect c df = .error (.keyError "EstimatedSalary") := by
  unfold insightsSect avgSalaryOf
  rw [churnedOf_cols, if_neg h]

/-- With the salary and card-type columns present but no churned rows, the
insights computation raises the `idxmax` ValueError. -/
theorem insightsSect_valueError_CT (c : String) (df : DF)
    (hES : "EstimatedSalary" ∈ df.cols) (hCT : "Card Type" ∈ df.cols)
    (hch : (churnedOf df).rows = []) :
    insightsSect c df = .error (.valueError "attempt to get argmax of an empty sequence") := by
  have hcv : colVals (churnedOf df) "Card Type" = [] := by
    unfold colVals
    rw [hch]
    rfl
  have htc : topCategory (churnedOf df) "Card Type" =
      .error (.valueError "attempt to get argmax of an empty sequence") := by
    unfold topCategory
    rw [churnedOf_cols, if_pos hCT, hcv]
    rfl
  unfold insightsSect avgSalaryOf
  rw [churnedOf_cols, retainedOf_cols, if_pos hES, if_pos hES, htc]

/-- The age-group analogue: salary present, card type absent, age group
present, and no churned rows, again the `idxmax` ValueError. -/
theorem insightsSect_valueError_AG (c : String) (df : DF)
    (hES : "EstimatedSalary" ∈ df.cols) (hCT : "Card Type" ∉ df.cols)
    (hAG : "AgeGroup" ∈ df.cols) (hch : (churnedOf df).rows = []) :
    insightsSect c df = .error (.valueError "attempt to get argmax of an empty sequence") := by
  have hcv : colVals (churnedOf df) "AgeGroup" = [] := by
    unfold colVals
    rw [hch]
    rfl
  have htc : topCategory (churnedOf df) "Card Type" = .ok "N/A" := by
    unfold topCategory
    rw [churnedOf_cols, if_neg hCT]
  have hta : topCategory (churnedOf df) "AgeGroup" =
      .error (.valueError "attempt to get argmax of an empty sequence") := by
    unfold topCategory
    rw [churnedOf_cols, if_pos hAG, hcv]
    rfl
  unfold insightsSect avgSalaryOf
  rw [churnedOf_cols, retainedOf_cols, if_pos hES, if_pos hES, htc, hta]

/-- When both categorical columns are absent but the salary column is
present, the panel is produced with both placeholders. -/
theorem insightsSect_placeholder (c : String) (df : DF)
    (hES : "EstimatedSalary" ∈ df.cols) (hCT : "Card Type" ∉ df.cols)
    (hAG : "AgeGroup" ∉ df.cols) :
    insightsSect c df = .ok (.insights c (rateStr df)
      (meanOpt (numsOf (colVals (churnedOf df) "EstimatedSalary")))
      (meanOpt (numsOf (colVals (retainedOf df) "EstimatedSalary")))
      "N/A" "N/A" (headingColor c)) := by
  have htc : topCategory (churnedOf df) "Card Type" = .ok "N/A" := by
    unfold topCategory
    rw [churnedOf_cols, if_neg hCT]
  have hta : topCategory (churnedOf df) "AgeGroup" = .ok "N/A" := by
    unfold topCategory
    rw [churnedOf_cols, if_neg hAG]
  unfold insightsSect avgSalaryOf
  rw [churnedOf_cols, retainedOf_cols, if_pos hES, if_pos hES, htc, hta]

/-- The full-run equation in the successful case. -/
theorem renderApp_ok_eq (country : String) (df : DF) (hE : "Exited" ∈ df.cols)
    (bs : List Sect) (hbs : barSect df = .ok bs) (ins : Sect)
    (hins : insightsSect country df = .ok ins) :
    renderApp country df =
      (secs1 country df ++ bs ++ pieSects df ++ tenureSect df ++ cscSect df
        ++ [ins] ++ postSections, none) := by
  unfold renderApp
  rw [if_pos hE, hbs, hins]

/-- The full-run equation when the insights step faults. -/
theorem renderApp_insights_error_eq (country : String) (df : DF)
    (hE : "Exited" ∈ df.cols) (bs : List Sect) (hbs : barSect df = .ok bs)
    (f : Fault) (hins : insightsSect country df = .error f) :
    renderApp country df =
      (secs1 country df ++ bs ++ pieSects df ++ tenureSect df ++ cscSect df,
       some f) := by
  unfold renderApp
  rw [if_pos hE, hbs, hins]

/-- The full-run equation when the grouped-bar step faults. -/
theorem renderApp_bar_error_eq (country : String) (df : DF)
    (hE : "Exited" ∈ df.cols) (f : Fault) (hbar : barSect df = .error f) :
    renderApp country df = (secs1 country df, some f) := by
  unfold renderApp
  rw [if_pos hE, hbar]

/-! ### Chart presence in the trace -/

/-- The gender chart appears exactly when `Gender` is present. -/
theorem any_gender_renderApp (country : String) (df : DF)
    (hE : "Exited" ∈ df.cols) :
    ((renderApp country df).1.any Sect.isGender = true) ↔ "Gender" ∈ df.cols := by
  rcases renderApp_cases country df hE with ⟨f, hbar, hr⟩ |
      ⟨bs, hbs, ⟨f, hins, hr⟩ | ⟨ins, hins, hr⟩⟩
  · rw [hr]
    by_cases hG : "Gender" ∈ df.cols <;>
      simp [secs1, preSections, overviewSects, metricSects, churnDistSect, genderSect,
        ageSect, creditSect, salaryBoxSect, List.any_append, any_ite, Sect.isGender, hG]
  · rcases barSect_ok_shape df bs hbs with hsh | ⟨g, hg, hsh⟩ <;> subst hsh <;> rw [hr] <;>
      by_cases hG : "Gender" ∈ df.cols <;>
      simp [secs1, preSections, overviewSects, metricSects, churnDistSect, genderSect,
        ageSect, creditSect, salaryBoxSect, pieSects, tenureSect, cscSect,
        List.any_append, any_ite, Sect.isGender, hG]
  · obtain ⟨aC, aR, tc, ca, hshape⟩ := insightsSect_ok_shape country df ins hins
    rcases barSect_ok_shape df bs hbs with hsh | ⟨g, hg, hsh⟩ <;> subst hsh <;>
      subst hshape <;> rw [hr] <;>
      by_cases hG : "Gender" ∈ df.cols <;>
      simp [secs1, preSections, overviewSects, metricSects, churnDistSect, genderSect,
        ageSect, creditSect, salaryBoxSect, pieSects, tenureSect, cscSect, postSections,
        List.any_append, any_ite, Sect.isGender, hG]

/-- The age box plot appears exactly when `Age` is present. -/
theorem any_ageBox_renderApp (country : String) (df : DF)
    (hE : "Exited" ∈ df.cols) :
    ((renderApp country df).1.any Sect.isAgeBox = true) ↔ "Age" ∈ df.cols := by
  rcases renderApp_cases country df hE with ⟨f, hbar, hr⟩ |
      ⟨bs, hbs, ⟨f, hins, hr⟩ | ⟨ins, hins, hr⟩⟩
  · rw [hr]
    by_cases hG : "Age" ∈ df.cols <;>
      simp [secs1, preSections, overviewSects, metricSects, churnDistSect, genderSect,
        ageSect, creditSect, salaryBoxSect, List.any_append, any_ite, Sect.isAgeBox, hG]
  · rcases barSect_ok_shape df bs hbs with hsh | ⟨g, hg, hsh⟩ <;> subst hsh <;> rw [hr] <;>
      by_cases hG : "Age" ∈ df.cols <;>
      simp [secs1, preSections, overviewSects, metricSects, churnDistSect, genderSect,
        ageSect, creditSect, salaryBoxSect, pieSects, tenureSect, cscSect,
        List.any_append, any_ite, Sect.isAgeBox, hG]
  · obtain ⟨aC, aR, tc, ca, hshape⟩ := insightsSect_ok_shape country df ins hins
    rcases barSect_ok_shape df bs hbs with hsh | ⟨g, hg, hsh⟩ <;> subst hsh <;>
      subst hshape <;> rw [hr] <;>
      by_cases hG : "Age" ∈ df.cols <;>
      simp [secs1, preSections, overviewSects, metricSects, churnDistSect, genderSect,
        ageSect, creditSect, salaryBoxSect, pieSects, tenureSect, cscSect, postSections,
        List.any_append, any_ite, Sect.isAgeBox, hG]

/-- The credit-score chart appears exactly when `CreditScore` is present. -/
theorem any_credit_renderApp (country : String) (df : DF)
    (hE : "Exited" ∈ df.cols) :
    ((renderApp country df).1.any Sect.isCredit = true) ↔ "CreditScore" ∈ df.cols := by
  rcases renderApp_cases country df hE with ⟨f, hbar, hr⟩ |
      ⟨bs, hbs, ⟨f, hins, hr⟩ | ⟨ins, hins, hr⟩⟩
  · rw [hr]
    by_cases hG : "CreditScore" ∈ df.cols <;>
      simp [secs1, preSections, overviewSects, metricSects, churnDistSect, genderSect,
        ageSect, creditSect, salaryBoxSect, List.any_append, any_ite, Sect.isCredit, hG]
  · rcases barSect_ok_shape df bs hbs with hsh | ⟨g, hg, hsh⟩ <;> subst hsh <;> rw [hr] <;>
      by_cases hG : "CreditScore" ∈ df.cols <;>
      simp [secs1, preSections, overviewSects, metricSects, churnDistSect, genderSect,
        ageSect, creditSect, salaryBoxSect, pieSects, tenureSect, cscSect,
        List.any_append, any_ite, Sect.isCredit, hG]
  · obtain ⟨aC, aR, tc, ca, hshape⟩ := insightsSect_ok_shape country df ins hins
    rcases barSect_ok_shape df bs hbs with hsh | ⟨g, hg, hsh⟩ <;> subst hsh <;>
      subst hshape <;> rw [hr] <;>
      by_cases hG : "CreditScore" ∈ df.cols <;>
      simp [secs1, preSections, overviewSects, metricSects, churnDistSect, genderSect,
        ageSect, creditSect, salaryBoxSect, pieSects, tenureSect, cscSect, postSections,
        List.any_append, any_ite, Sect.isCredit, hG]

/-- The salary box plot appears exactly when `AgeGroup` and `EstimatedSalary`
are both present. -/
theorem any_salaryBox_renderApp (country : String) (df : DF)
    (hE : "Exited" ∈ df.cols) :
    ((renderApp country df).1.any Sect.isSalaryBox = true) ↔
      ("AgeGroup" ∈ df.cols ∧ "EstimatedSalary" ∈ df.cols) := by
  rcases renderApp_cases country df hE with ⟨f, hbar, hr⟩ |
      ⟨bs, hbs, ⟨f, hins, hr⟩ | ⟨ins, hins, hr⟩⟩
  · rw [hr]
    by_cases hG : ("AgeGroup" ∈ df.cols ∧ "EstimatedSalary" ∈ df.cols) <;>
      simp [secs1, preSections, overviewSects, metricSects, churnDistSect, genderSect,
        ageSect, creditSect, salaryBoxSect, List.any_append, any_ite, Sect.isSalaryBox, hG]
  · rcases barSect_ok_shape df bs hbs with hsh | ⟨g, hg, hsh⟩ <;> subst hsh <;> rw [hr] <;>
      by_cases hG : ("AgeGroup" ∈ df.cols ∧ "EstimatedSalary" ∈ df.cols) <;>
      simp [secs1, preSections, overviewSects, metricSects, churnDistSect, genderSect,
        ageSect, creditSect, salaryBoxSect, pieSects, tenureSect, cscSect,
        List.any_append, any_ite, Sect.isSalaryBox, hG]
  · obtain ⟨aC, aR, tc, ca, hshape⟩ := insightsSect_ok_shape country df ins hins
    rcases barSect_ok_shape df bs hbs with hsh | ⟨g, hg, hsh⟩ <;> subst hsh <;>
      subst hshape <;> rw [hr] <;>
      by_cases hG : ("AgeGroup" ∈ df.cols ∧ "EstimatedSalary" ∈ df.cols) <;>
      simp [secs1, preSections, overviewSects, metricSects, churnDistSect, genderSect,
        ageSect, creditSect, salaryBoxSect, pieSects, tenureSect, cscSect, postSections,
        List.any_append, any_ite, Sect.isSalaryBox, hG]

/-- The grouped bar chart appears exactly when `AgeGroup`, `Card Type` and
`EstimatedSalary` are all present (the third is needed by the aggregation,
not by the source's gate). -/
theorem any_salaryBar_renderApp (country : String) (df : DF)
    (hE : "Exited" ∈ df.cols) :
    ((renderApp country df).1.any Sect.isSalaryBar = true) ↔
      ("AgeGroup" ∈ df.cols ∧ "Card Type" ∈ df.cols ∧ "EstimatedSalary" ∈ df.cols) := by
  rcases renderApp_cases country df hE with ⟨f, hbar, hr⟩ |
      ⟨bs, hbs, ⟨f, hins, hr⟩ | ⟨ins, hins, hr⟩⟩
  · obtain ⟨hgc, hES, -⟩ := barSect_error_shape df f hbar
    rw [hr]
    simp only [List.any_append]
    constructor
    · intro hany
      exfalso
      revert hany
      simp [secs1, preSections, overviewSects, metricSects, churnDistSect, genderSect,
        ageSect, creditSect, salaryBoxSect, List.any_append, any_ite, Sect.isSalaryBar]
    · rintro ⟨-, -, hES2⟩
      exact absurd hES2 hES
  · rcases barSect_guard_shape df bs hbs with ⟨hguard, hsh⟩ | ⟨hguard, hES, g, hg, hsh⟩
    · subst hsh
      rw [hr]
      constructor
      · intro hany
        exfalso
        revert hany
        simp [secs1, preSections, overviewSects, metricSects, churnDistSect, genderSect,
          ageSect, creditSect, salaryBoxSect, pieSects, tenureSect, cscSect,
          List.any_append, any_ite, Sect.isSalaryBar]
      · rintro ⟨h1, h2, -⟩
        exact absurd ⟨h1, h2⟩ hguard
    · subst hsh
      rw [hr]
      constructor
      · intro _
        exact ⟨hguard.1, hguard.2, hES⟩
      · intro _
        simp [secs1, preSections, overviewSects, metricSects, churnDistSect, genderSect,
          ageSect, creditSect, salaryBoxSect, pieSects, tenureSect, cscSect,
          List.any_append, any_ite, Sect.isSalaryBar]
  · obtain ⟨aC, aR, tc, ca, hshape⟩ := insightsSect_ok_shape country df ins hins
    subst hshape
    rcases barSect_guard_shape df bs hbs with ⟨hguard, hsh⟩ | ⟨hguard, hES, g, hg, hsh⟩
    · subst hsh
      rw [hr]
      constructor
      · intro hany
        exfalso
        revert hany
        simp [secs1, preSections, overviewSects, metricSects, churnDistSect, genderSect,
          ageSect, creditSect, salaryBoxSect, pieSects, tenureSect, cscSect, postSections,
          List.any_append, any_ite, Sect.isSalaryBar]
      · rintro ⟨h1, h2, -⟩
        exact absurd ⟨h1, h2⟩ hguard
    · subst hsh
      rw [hr]
      constructor
      · intro _
        exact ⟨hguard.1, hguard.2, hES⟩
      · intro _
        simp [secs1, preSections, overviewSects, metricSects, churnDistSect, genderSect,
          ageSect, creditSect, salaryBoxSect, pieSects, tenureSect, cscSect, postSections,
          List.any_append, any_ite, Sect.isSalaryBar]

/-- Consequences of the unchecked salary column: with the gate passing and
`EstimatedSalary` absent, the run faults and everything from the pie chart
on is missing. -/
theorem renderApp_barFault (country : String) (df : DF) (hE : "Exited" ∈ df.cols)
    (h1 : "AgeGroup" ∈ df.cols ∧ "Card Type" ∈ df.cols)
    (h2 : "EstimatedSalary" ∉ df.cols) :
    (renderApp country df).2 = some (.keyError "EstimatedSalary")
    ∧ (renderApp country df).1.any Sect.isPie = false
    ∧ (renderApp country df).1.any Sect.isTenure = false
    ∧ (renderApp country df).1.any Sect.isCSC = false := by
  have hr := renderApp_bar_error_eq country df hE _ (barSect_error_of df h1 h2)
  rw [hr]
  refine ⟨rfl, ?_, ?_, ?_⟩ <;>
    simp [secs1, preSections, overviewSects, metricSects, churnDistSect, genderSect,
      ageSect, creditSect, salaryBoxSect, List.any_append, any_ite,
      Sect.isPie, Sect.isTenure, Sect.isCSC]

/-- Outside the faulting case, tenure and credit-score-category charts appear
exactly when their columns are present. -/
theorem any_tenure_csc_renderApp (country : String) (df : DF)
    (hE : "Exited" ∈ df.cols)
    (hnf : ¬("AgeGroup" ∈ df.cols ∧ "Card Type" ∈ df.cols ∧
        "EstimatedSalary" ∉ df.cols)) :
    (((renderApp country df).1.any Sect.isTenure = true) ↔ "Tenure" ∈ df.cols)
    ∧ (((renderApp country df).1.any Sect.isCSC = true) ↔
        "CreditScoreCategory" ∈ df.cols) := by
  rcases renderApp_cases country df hE with ⟨f, hbar, hr⟩ |
      ⟨bs, hbs, ⟨f, hins, hr⟩ | ⟨ins, hins, hr⟩⟩
  · obtain ⟨hgc, hES, -⟩ := barSect_error_shape df f hbar
    exact absurd ⟨hgc.1, hgc.2, hES⟩ hnf
  · rcases barSect_guard_shape df bs hbs with ⟨hguard, hsh⟩ | ⟨hguard, hES, g, hg, hsh⟩ <;>
      subst hsh <;> refine ⟨?_, ?_⟩ <;> rw [hr]
    · by_cases hT : "Tenure" ∈ df.cols <;>
        simp [secs1, preSections, overviewSects, metricSects, churnDistSect, genderSect,
          ageSect, creditSect, salaryBoxSect, pieSects, tenureSect, cscSect,
          List.any_append, any_ite, Sect.isTenure, hT]
    · by_cases hC : "CreditScoreCategory" ∈ df.cols <;>
        simp [secs1, preSections, overviewSects, metricSects, churnDistSect, genderSect,
          ageSect, creditSect, salaryBoxSect, pieSects, tenureSect, cscSect,
          List.any_append, any_ite, Sect.isCSC, hC]
    · by_cases hT : "Tenure" ∈ df.cols <;>
        simp [secs1, preSections, overviewSects, metricSects, churnDistSect, genderSect,
          ageSect, creditSect, salaryBoxSect, pieSects, tenureSect, cscSect,
          List.any_append, any_ite, Sect.isTenure, hT]
    · by_cases hC : "CreditScoreCategory" ∈ df.cols <;>
        simp [secs1, preSections, overviewSects, metricSects, churnDistSect, genderSect,
          ageSect, creditSect, salaryBoxSect, pieSects, tenureSect, cscSect,
          List.any_append, any_ite, Sect.isCSC, hC]
  · obtain ⟨aC, aR, tc, ca, hshape⟩ := insightsSect_ok_shape country df ins hins
    subst hshape
    rcases barSect_guard_shape df bs hbs with ⟨hguard, hsh⟩ | ⟨hguard, hES, g, hg, hsh⟩ <;>
      subst hsh <;> refine ⟨?_, ?_⟩ <;> rw [hr]
    · by_cases hT : "Tenure" ∈ df.cols <;>
        simp [secs1, preSections, overviewSects, metricSects, churnDistSect, genderSect,
          ageSect, creditSect, salaryBoxSect, pieSects, tenureSect, cscSect, postSections,
          List.any_append, any_ite, Sect.isTenure, hT]
    · by_cases hC : "CreditScoreCategory" ∈ df.cols <;>
        simp [secs1, preSections, overviewSects, metricSects, churnDistSect, genderSect,
          ageSect, creditSect, salaryBoxSect, pieSects, tenureSect, cscSect, postSections,
          List.any_append, any_ite, Sect.isCSC, hC]
    · by_cases hT : "Tenure" ∈ df.cols <;>
        simp [secs1, preSections, overviewSects, metricSects, churnDistSect, genderSect,
          ageSect, creditSect, salaryBoxSect, pieSects, tenureSect, cscSect, postSections,
          List.any_append, any_ite, Sect.isTenure, hT]
    · by_cases hC : "CreditScoreCategory" ∈ df.cols <;>
        simp [secs1, preSections, overviewSects, metricSects, churnDistSect, genderSect,
          ageSect, creditSect, salaryBoxSect, pieSects, tenureSect, cscSect, postSections,
          List.any_append, any_ite, Sect.isCSC, hC]

/-! ### Claim C1: conditional chart gating -/

/-- C1 (amended): each gated chart appears iff the columns its source gate
checks are present; the grouped-bar gate omits `EstimatedSalary`, so when
`AgeGroup` and `Card Type` are present without it the run raises a KeyError
(truncating everything from the pie chart on) instead of skipping silently.
Outside that case the tenure and credit-score-category gates behave as
stated. -/
theorem c1_chart_gating_amended (country : String) (df : DF)
    (hE : "Exited" ∈ df.cols) :
    (((renderApp country df).1.any Sect.isGender = true) ↔ "Gender" ∈ df.cols)
    ∧ (((renderApp country df).1.any Sect.isAgeBox = true) ↔ "Age" ∈ df.cols)
    ∧ (((renderApp country df).1.any Sect.isCredit = true) ↔ "CreditScore" ∈ df.cols)
    ∧ (((renderApp country df).1.any Sect.isSalaryBox = true) ↔
        ("AgeGroup" ∈ df.cols ∧ "EstimatedSalary" ∈ df.cols))
    ∧ (((renderApp country df).1.any Sect.isSalaryBar = true) ↔
        ("AgeGroup" ∈ df.cols ∧ "Card Type" ∈ df.cols ∧ "EstimatedSalary" ∈ df.cols))
    ∧ (("AgeGroup" ∈ df.cols ∧ "Card Type" ∈ df.cols ∧ "EstimatedSalary" ∉ df.cols) →
        (renderApp country df).2 = some (.keyError "EstimatedSalary")
        ∧ (renderApp country df).1.any Sect.isPie = false
        ∧ (renderApp country df).1.any Sect.isTenure = false
        ∧ (renderApp country df).1.any Sect.isCSC = false)
    ∧ (¬("AgeGroup" ∈ df.cols ∧ "Card Type" ∈ df.cols ∧ "EstimatedSalary" ∉ df.cols) →
        (((renderApp country df).1.any Sect.isTenure = true) ↔ "Tenure" ∈ df.cols)
        ∧ (((renderApp country df).1.any Sect.isCSC = true) ↔
            "CreditScoreCategory" ∈ df.cols)) :=
  ⟨any_gender_renderApp country df hE, any_ageBox_renderApp country df hE,
   any_credit_renderApp country df hE, any_salaryBox_renderApp country df hE,
   any_salaryBar_renderApp country df hE,
   fun h => renderApp_barFault country df hE ⟨h.1, h.2.1⟩ h.2.2,
   fun hn => any_tenure_csc_renderApp country df hE hn⟩

/-- A table with the grouped-bar gate satisfied but no salary column. -/
def dfBarFault : DF :=
  ⟨["Exited", "AgeGroup", "Card Type"],
   [[("Exited", .num 1), ("AgeGroup", .str "Adult"), ("Card Type", .str "GOLD")]]⟩

/-- C1 counterexample: on `dfBarFault` the conditional chart sequence raises
a KeyError, so a chart with a missing required column is not always skipped
silently. -/
theorem c1_counterexample :
    (renderApp "France" dfBarFault).2 = some (.keyError "EstimatedSalary") := by
  have hb : barSect dfBarFault = .error (.keyError "EstimatedSalary") :=
    barSect_error_of dfBarFault ⟨by decide, by decide⟩ (by decide)
  rw [renderApp_bar_error_eq "France" dfBarFault (by decide) _ hb]

/-- Witness for the amended C1 at a concrete table. -/
theorem c1_chart_gating_amended_witness :
    ("Exited" ∈ dfBarFault.cols) ∧
    ((((renderApp "France" dfBarFault).1.any Sect.isGender = true) ↔
        "Gender" ∈ dfBarFault.cols)
      ∧ (((renderApp "France" dfBarFault).1.any Sect.isAgeBox = true) ↔
          "Age" ∈ dfBarFault.cols)
      ∧ (((renderApp "France" dfBarFault).1.any Sect.isCredit = true) ↔
          "CreditScore" ∈ dfBarFault.cols)
      ∧ (((renderApp "France" dfBarFault).1.any Sect.isSalaryBox = true) ↔
          ("AgeGroup" ∈ dfBarFault.cols ∧ "EstimatedSalary" ∈ dfBarFault.cols))
      ∧ (((renderApp "France" dfBarFault).1.any Sect.isSalaryBar = true) ↔
          ("AgeGroup" ∈ dfBarFault.cols ∧ "Card Type" ∈ dfBarFault.cols ∧
            "EstimatedSalary" ∈ dfBarFault.cols))
      ∧ (("AgeGroup" ∈ dfBarFault.cols ∧ "Card Type" ∈ dfBarFault.cols ∧
            "EstimatedSalary" ∉ dfBarFault.cols) →
          (renderApp "France" dfBarFault).2 = some (.keyError "EstimatedSalary")
          ∧ (renderApp "France" dfBarFault).1.any Sect.isPie = false
          ∧ (renderApp "France" dfBarFault).1.any Sect.isTenure = false
          ∧ (renderApp "France" dfBarFault).1.any Sect.isCSC = false)
      ∧ (¬("AgeGroup" ∈ dfBarFault.cols ∧ "Card Type" ∈ dfBarFault.cols ∧
            "EstimatedSalary" ∉ dfBarFault.cols) →
          (((renderApp "France" dfBarFault).1.any Sect.isTenure = true) ↔
            "Tenure" ∈ dfBarFault.cols)
          ∧ (((renderApp "France" dfBarFault).1.any Sect.isCSC = true) ↔
              "CreditScoreCategory" ∈ dfBarFault.cols))) :=
  ⟨by decide, c1_chart_gating_amended "France" dfBarFault (by decide)⟩

/-! ### Claim C5: the pie chart -/

/-- Outside the faulting case, the pie chart derived from the `Exited` value
counts is in the trace. -/
theorem pie_mem_renderApp (country : String) (df : DF) (hE : "Exited" ∈ df.cols)
    (hnf : ¬("AgeGroup" ∈ df.cols ∧ "Card Type" ∈ df.cols ∧
        "EstimatedSalary" ∉ df.cols)) :
    Sect.chartPie ((valueCounts (colVals df "Exited")).map Prod.snd)
      ((valueCounts (colVals df "Exited")).map (fun p => renameRetChurn p.1)) ∈
      (renderApp country df).1 := by
  rcases renderApp_cases country df hE with ⟨f, hbar, hr⟩ |
      ⟨bs, hbs, ⟨f, hins, hr⟩ | ⟨ins, hins, hr⟩⟩
  · obtain ⟨hgc, hES, -⟩ := barSect_error_shape df f hbar
    exact absurd ⟨hgc.1, hgc.2, hES⟩ hnf
  · rw [hr]
    simp [pieSects, List.mem_append]
  · rw [hr]
    simp [pieSects, List.mem_append]

/-- C5 (amended): provided the run does not fault at the grouped-bar step
(the C1 correction), the pie chart is rendered, its values are the `Exited`
value counts with 0 relabelled "Retained" and 1 relabelled "Churned", and
the values sum to the row count. -/
theorem c5_pie_amended (country : String) (df : DF) (hwf : df.WF)
    (hE : "Exited" ∈ df.cols)
    (h01 : ∀ v ∈ colVals df "Exited", v = .num 0 ∨ v = .num 1)
    (hnf : ¬("AgeGroup" ∈ df.cols ∧ "Card Type" ∈ df.cols ∧
        "EstimatedSalary" ∉ df.cols)) :
    (Sect.chartPie ((valueCounts (colVals df "Exited")).map Prod.snd)
        ((valueCounts (colVals df "Exited")).map (fun p => renameRetChurn p.1)) ∈
        (renderApp country df).1)
    ∧ ((valueCounts (colVals df "Exited")).map Prod.snd).sum = df.rows.length
    ∧ (∀ p ∈ valueCounts (colVals df "Exited"),
        (renameRetChurn p.1 = .str "Retained"
          ∧ p.2 = (colVals df "Exited").count (.num 0))
        ∨ (renameRetChurn p.1 = .str "Churned"
          ∧ p.2 = (colVals df "Exited").count (.num 1)))
    ∧ ((colVals df "Exited").count (.num 0) ≠ 0 →
        (.num 0, (colVals df "Exited").count (.num 0)) ∈
          valueCounts (colVals df "Exited"))
    ∧ ((colVals df "Exited").count (.num 1) ≠ 0 →
        (.num 1, (colVals df "Exited").count (.num 1)) ∈
          valueCounts (colVals df "Exited")) := by
  refine ⟨pie_mem_renderApp country df hE hnf, ?_, ?_, ?_, ?_⟩
  · have hmm : (valueCounts (colVals df "Exited")).map Prod.snd
        = (colVals df "Exited").dedup.map (fun v => (colVals df "Exited").count v) := by
      unfold valueCounts
      rw [List.map_map]
      rfl
    rw [hmm, List.sum_map_count_dedup_eq_length, length_colVals df "Exited" hwf hE]
  · intro p hp
    obtain ⟨v, hv, hpv⟩ := List.mem_map.mp hp
    subst hpv
    have hvl : v ∈ colVals df "Exited" := List.mem_dedup.mp hv
    rcases h01 v hvl with rfl | rfl
    · left
      refine ⟨?_, rfl⟩
      norm_num [renameRetChurn]
    · right
      refine ⟨?_, rfl⟩
      norm_num [renameRetChurn]
  · intro h0
    have hv : (.num 0 : Val) ∈ colVals df "Exited" :=
      List.count_pos_iff.mp (Nat.pos_of_ne_zero h0)
    exact List.mem_map.mpr ⟨.num 0, List.mem_dedup.mpr hv, rfl⟩
  · intro h1
    have hv : (.num 1 : Val) ∈ colVals df "Exited" :=
      List.count_pos_iff.mp (Nat.pos_of_ne_zero h1)
    exact List.mem_map.mpr ⟨.num 1, List.mem_dedup.mpr hv, rfl⟩

/-- C5 counterexample: on `dfBarFault` — whose `Exited` column holds only 0s
and 1s — the pie chart is not rendered at all, because the run faults first. -/
theorem c5_counterexample :
    (∀ v ∈ colVals dfBarFault "Exited", v = .num 0 ∨ v = .num 1) ∧
      (renderApp "France" dfBarFault).1.any Sect.isPie = false := by
  constructor
  · decide
  · have hb : barSect dfBarFault = .error (.keyError "EstimatedSalary") :=
      barSect_error_of dfBarFault ⟨by decide, by decide⟩ (by decide)
    rw [renderApp_bar_error_eq "France" dfBarFault (by decide) _ hb]
    decide

/-- A two-row table, one churned and one retained. -/
def dfPie : DF :=
  ⟨["Exited"], [[("Exited", .num 1)], [("Exited", .num 0)]]⟩

/-- Witness for the amended C5 at a concrete table. -/
theorem c5_pie_amended_witness :
    dfPie.WF ∧ "Exited" ∈ dfPie.cols ∧
      (∀ v ∈ colVals dfPie "Exited", v = .num 0 ∨ v = .num 1) ∧
      ¬("AgeGroup" ∈ dfPie.cols ∧ "Card Type" ∈ dfPie.cols ∧
          "EstimatedSalary" ∉ dfPie.cols) ∧
      (((valueCounts (colVals dfPie "Exited")).map Prod.snd).sum = dfPie.rows.length
        ∧ Sect.chartPie ((valueCounts (colVals dfPie "Exited")).map Prod.snd)
            ((valueCounts (colVals dfPie "Exited")).map (fun p => renameRetChurn p.1)) ∈
            (renderApp "France" dfPie).1) := by
  have h := c5_pie_amended "France" dfPie (by decide) (by decide) (by decide) (by decide)
  exact ⟨by decide, by decide, by decide, by decide, h.2.1, h.1⟩

/-! ### Claim C4: the insights placeholders -/

/-- Whenever the salary column is missing, the run faults with its KeyError
(either at the grouped-bar step or at the first insights field) and no
insights panel is rendered. -/
theorem renderApp_fault_noES (country : String) (df : DF) (hE : "Exited" ∈ df.cols)
    (h : "EstimatedSalary" ∉ df.cols) :
    (renderApp country df).2 = some (.keyError "EstimatedSalary")
    ∧ (renderApp country df).1.any Sect.isInsights = false := by
  by_cases hgc : ("AgeGroup" ∈ df.cols ∧ "Card Type" ∈ df.cols)
  · have hb := barSect_error_of df hgc h
    rw [renderApp_bar_error_eq country df hE _ hb]
    refine ⟨rfl, ?_⟩
    simp [secs1, preSections, overviewSects, metricSects, churnDistSect, genderSect,
      ageSect, creditSect, salaryBoxSect, List.any_append, any_ite, Sect.isInsights]
  · have hb : barSect df = .ok [] := by
      unfold barSect
      rw [if_neg hgc]
    rw [renderApp_insights_error_eq country df hE [] hb _
      (insightsSect_error_ES country df h)]
    refine ⟨rfl, ?_⟩
    simp [secs1, preSections, overviewSects, metricSects, churnDistSect, genderSect,
      ageSect, creditSect, salaryBoxSect, pieSects, tenureSect, cscSect,
      List.any_append, any_ite, Sect.isInsights]

/-- C4 (amended): the card-type and age-group insight fields fall back to the
"N/A" placeholder when their columns are absent, but the two mean-salary
fields have no guard: with `EstimatedSalary` absent the run raises a KeyError
and the insights panel is never rendered.  With salary present and both
categorical columns absent, the panel renders with both placeholders and no
fault. -/
theorem c4_insights_placeholders_amended (country : String) (df : DF)
    (hE : "Exited" ∈ df.cols) :
    ("EstimatedSalary" ∉ df.cols →
      (renderApp country df).2 = some (.keyError "EstimatedSalary")
      ∧ (renderApp country df).1.any Sect.isInsights = false)
    ∧ ("Card Type" ∉ df.cols → topCategory (churnedOf df) "Card Type" = .ok "N/A")
    ∧ ("AgeGroup" ∉ df.cols → topCategory (churnedOf df) "AgeGroup" = .ok "N/A")
    ∧ ("EstimatedSalary" ∈ df.cols → "Card Type" ∉ df.cols → "AgeGroup" ∉ df.cols →
        (renderApp country df).2 = none
        ∧ Sect.insights country (rateStr df)
            (meanOpt (numsOf (colVals (churnedOf df) "EstimatedSalary")))
            (meanOpt (numsOf (colVals (retainedOf df) "EstimatedSalary")))
            "N/A" "N/A" (headingColor country) ∈ (renderApp country df).1) := by
  refine ⟨fun h => renderApp_fault_noES country df hE h, ?_, ?_, ?_⟩
  · intro hCT
    unfold topCategory
    rw [churnedOf_cols, if_neg hCT]
  · intro hAG
    unfold topCategory
    rw [churnedOf_cols, if_neg hAG]
  · intro hES hCT hAG
    obtain ⟨bs, hbs⟩ := barSect_ok_of_ES df hES
    have hins := insightsSect_placeholder country df hES hCT hAG
    rw [renderApp_ok_eq country df hE bs hbs _ hins]
    refine ⟨rfl, ?_⟩
    simp [List.mem_append]

/-- A one-row table with `Exited` but no `EstimatedSalary`. -/
def dfNoSalary : DF := ⟨["Exited"], [[("Exited", .num 1)]]⟩

/-- C4 counterexample: on a table lacking `EstimatedSalary` the mean-salary
insight fields do not fall back to a placeholder — the run raises a KeyError
and no insights panel appears. -/
theorem c4_counterexample :
    "EstimatedSalary" ∉ dfNoSalary.cols ∧
      (renderApp "France" dfNoSalary).2 = some (.keyError "EstimatedSalary") ∧
      (renderApp "France" dfNoSalary).1.any Sect.isInsights = false := by
  obtain ⟨h1, h2⟩ := renderApp_fault_noES "France" dfNoSalary (by decide) (by decide)
  exact ⟨by decide, h1, h2⟩

/-- Witness for the amended C4 at a concrete table. -/
theorem c4_insights_placeholders_amended_witness :
    ("Exited" ∈ dfNoSalary.cols) ∧
    (("EstimatedSalary" ∉ dfNoSalary.cols →
        (renderApp "France" dfNoSalary).2 = some (.keyError "EstimatedSalary")
        ∧ (renderApp "France" dfNoSalary).1.any Sect.isInsights = false)
      ∧ ("Card Type" ∉ dfNoSalary.cols →
          topCategory (churnedOf dfNoSalary) "Card Type" = .ok "N/A")
      ∧ ("AgeGroup" ∉ dfNoSalary.cols →
          topCategory (churnedOf dfNoSalary) "AgeGroup" = .ok "N/A")
      ∧ ("EstimatedSalary" ∈ dfNoSalary.cols → "Card Type" ∉ dfNoSalary.cols →
          "AgeGroup" ∉ dfNoSalary.cols →
          (renderApp "France" dfNoSalary).2 = none
          ∧ Sect.insights "France" (rateStr dfNoSalary)
              (meanOpt (numsOf (colVals (churnedOf dfNoSalary) "EstimatedSalary")))
              (meanOpt (numsOf (colVals (retainedOf dfNoSalary) "EstimatedSalary")))
              "N/A" "N/A" (headingColor "France") ∈ (renderApp "France" dfNoSalary).1)) :=
  ⟨by decide, c4_insights_placeholders_amended "France" dfNoSalary (by decide)⟩

/-! ### Claim C10: `idxmax` on an empty churned subset -/

/-- C10: with the guard column present but zero churned rows, the
most-frequent-category computation takes the argmax of empty value counts
and raises a ValueError — the placeholder guard covers only column absence.
The run faults and the insights panel is never rendered. -/
theorem c10_idxmax_empty_faults (country : String) (df : DF)
    (hE : "Exited" ∈ df.cols) (hES : "EstimatedSalary" ∈ df.cols)
    (hch : (churnedOf df).rows = []) :
    ("Card Type" ∈ df.cols →
      topCategory (churnedOf df) "Card Type" =
        .error (.valueError "attempt to get argmax of an empty sequence")
      ∧ (renderApp country df).2 =
          some (.valueError "attempt to get argmax of an empty sequence")
      ∧ (renderApp country df).1.any Sect.isInsights = false)
    ∧ ("Card Type" ∉ df.cols → "AgeGroup" ∈ df.cols →
      topCategory (churnedOf df) "AgeGroup" =
        .error (.valueError "attempt to get argmax of an empty sequence")
      ∧ (renderApp country df).2 =
          some (.valueError "attempt to get argmax of an empty sequence")) := by
  constructor
  · intro hCT
    have hcv : colVals (churnedOf df) "Card Type" = [] := by
      unfold colVals
      rw [hch]
      rfl
    have htc : topCategory (churnedOf df) "Card Type" =
        .error (.valueError "attempt to get argmax of an empty sequence") := by
      unfold topCategory
      rw [churnedOf_cols, if_pos hCT, hcv]
      rfl
    obtain ⟨bs, hbs⟩ := barSect_ok_of_ES df hES
    have hins := insightsSect_valueError_CT country df hES hCT hch
    rw [renderApp_insights_error_eq country df hE bs hbs _ hins]
    refine ⟨htc, rfl, ?_⟩
    rcases barSect_guard_shape df bs hbs with ⟨-, hsh⟩ | ⟨-, -, g, -, hsh⟩ <;> subst hsh <;>
      simp [secs1, preSections, overviewSects, metricSects, churnDistSect, genderSect,
        ageSect, creditSect, salaryBoxSect, pieSects, tenureSect, cscSect,
        List.any_append, any_ite, Sect.isInsights]
  · intro hCT hAG
    have hcv : colVals (churnedOf df) "AgeGroup" = [] := by
      unfold colVals
      rw [hch]
      rfl
    have hta : topCategory (churnedOf df) "AgeGroup" =
        .error (.valueError "attempt to get argmax of an empty sequence") := by
      unfold topCategory
      rw [churnedOf_cols, if_pos hAG, hcv]
      rfl
    obtain ⟨bs, hbs⟩ := barSect_ok_of_ES df hES
    have hins := insightsSect_valueError_AG country df hES hCT hAG hch
    rw [renderApp_insights_error_eq country df hE bs hbs _ hins]
    exact ⟨hta, rfl⟩

/-- A table with `Card Type` present and no churned rows. -/
def dfEmptyChurn : DF :=
  ⟨["Exited", "EstimatedSalary", "Card Type"],
   [[("Exited", .num 0), ("EstimatedSalary", .num 5), ("Card Type", .str "GOLD")]]⟩

/-- Witness for C10 at a concrete table with no churned rows. -/
theorem c10_idxmax_empty_faults_witness :
    ("Exited" ∈ dfEmptyChurn.cols) ∧ ("EstimatedSalary" ∈ dfEmptyChurn.cols) ∧
    ((churnedOf dfEmptyChurn).rows = []) ∧ ("Card Type" ∈ dfEmptyChurn.cols) ∧
    (topCategory (churnedOf dfEmptyChurn) "Card Type" =
        .error (.valueError "attempt to get argmax of an empty sequence")
      ∧ (renderApp "France" dfEmptyChurn).2 =
          some (.valueError "attempt to get argmax of an empty sequence")
      ∧ (renderApp "France" dfEmptyChurn).1.any Sect.isInsights = false) :=
  ⟨by decide, by decide, by decide, by decide,
   (c10_idxmax_empty_faults "France" dfEmptyChurn (by decide) (by decide)
      (by decide)).1 (by decide)⟩

/-! ### Claim C6: the grouped aggregation -/

/-- A pair is a group key exactly when some row carries it. -/
theorem mem_groupKeys (df : DF) (a c : Val) :
    (a, c) ∈ groupKeys df ↔
      ∃ r ∈ df.rows, List.lookup "AgeGroup" r = some a
        ∧ List.lookup "Card Type" r = some c := by
  unfold groupKeys
  rw [List.mem_dedup, List.mem_filterMap]
  constructor
  · rintro ⟨r, hr, hm⟩
    cases h1 : List.lookup "AgeGroup" r <;> rw [h1] at hm
    · cases hm
    · cases h2 : List.lookup "Card Type" r <;> rw [h2] at hm
      · cases hm
      · simp only [Option.some.injEq, Prod.mk.injEq] at hm
        exact ⟨r, hr, hm.1 ▸ h1, hm.2 ▸ h2⟩
  · rintro ⟨r, hr, h1, h2⟩
    refine ⟨r, hr, ?_⟩
    rw [h1, h2]

/-- C6: with all three columns present, the aggregation succeeds and yields
exactly one output row per distinct (AgeGroup, Card Type) pair occurring in
the rows, whose value is the arithmetic mean of `EstimatedSalary` over the
rows carrying that pair. -/
theorem c6_grouped_one_row_per_pair (df : DF) (_hAG : "AgeGroup" ∈ df.cols)
    (_hCT : "Card Type" ∈ df.cols) (hES : "EstimatedSalary" ∈ df.cols) :
    grouped_df df = .ok ((groupKeys df).map
      (fun p => (p.1, p.2, listMean (groupSalaries df p.1 p.2))))
    ∧ (groupKeys df).Nodup
    ∧ (∀ a c, (a, c) ∈ groupKeys df ↔
        ∃ r ∈ df.rows, List.lookup "AgeGroup" r = some a
          ∧ List.lookup "Card Type" r = some c)
    ∧ (∀ e ∈ (groupKeys df).map
        (fun p => (p.1, p.2, listMean (groupSalaries df p.1 p.2))),
        e.2.2 = listMean (groupSalaries df e.1 e.2.1)) := by
  refine ⟨?_, List.nodup_dedup _, fun a c => mem_groupKeys df a c, ?_⟩
  · unfold grouped_df
    rw [if_pos hES]
  · intro e he
    obtain ⟨p, hp, hpe⟩ := List.mem_map.mp he
    subst hpe
    rfl

/-- A four-column table with two rows in one group and one in another. -/
def dfGrouped : DF :=
  ⟨["Exited", "AgeGroup", "Card Type", "EstimatedSalary"],
   [[("Exited", .num 0), ("AgeGroup", .str "Adult"), ("Card Type", .str "GOLD"),
     ("EstimatedSalary", .num 100)],
    [("Exited", .num 1), ("AgeGroup", .str "Adult"), ("Card Type", .str "GOLD"),
     ("EstimatedSalary", .num 200)],
    [("Exited", .num 0), ("AgeGroup", .str "Senior"), ("Card Type", .str "SILVER"),
     ("EstimatedSalary", .num 50)]]⟩

/-- Witness for C6 at a concrete table. -/
theorem c6_grouped_one_row_per_pair_witness :
    ("AgeGroup" ∈ dfGrouped.cols) ∧ ("Card Type" ∈ dfGrouped.cols) ∧
    ("EstimatedSalary" ∈ dfGrouped.cols) ∧
    (grouped_df dfGrouped = .ok ((groupKeys dfGrouped).map
        (fun p => (p.1, p.2, listMean (groupSalaries dfGrouped p.1 p.2))))
      ∧ (groupKeys dfGrouped).Nodup
      ∧ (∀ a c, (a, c) ∈ groupKeys dfGrouped ↔
          ∃ r ∈ dfGrouped.rows, List.lookup "AgeGroup" r = some a
            ∧ List.lookup "Card Type" r = some c)
      ∧ (∀ e ∈ (groupKeys dfGrouped).map
          (fun p => (p.1, p.2, listMean (groupSalaries dfGrouped p.1 p.2))),
          e.2.2 = listMean (groupSalaries dfGrouped e.1 e.2.1))) :=
  ⟨by decide, by decide, by decide,
   c6_grouped_one_row_per_pair dfGrouped (by decide) (by decide) (by decide)⟩

/-! ### Claim C7: cache idempotence -/

/-- C7: for each supported country, a second load within one process returns
the same table by value and performs no file read. -/
theorem c7_cache_idempotent (readCSV : String → DF) (c : String)
    (hc : c ∈ ["France", "Germany", "Spain"]) :
    (cachedLoad readCSV ⟨[]⟩ c).1.isSome = true
    ∧ (cachedLoad readCSV (cachedLoad readCSV ⟨[]⟩ c).2.1 c).1 =
        (cachedLoad readCSV ⟨[]⟩ c).1
    ∧ (cachedLoad readCSV (cachedLoad readCSV ⟨[]⟩ c).2.1 c).2.2 = 0 := by
  fin_cases hc <;> exact ⟨rfl, rfl, rfl⟩

/-- A constant file reader for the C7 witness. -/
def constReadCSV : String → DF := fun _ => ⟨["Exited"], []⟩

/-- Witness for C7 at France with a concrete reader. -/
theorem c7_cache_idempotent_witness :
    ("France" ∈ ["France", "Germany", "Spain"]) ∧
    ((cachedLoad constReadCSV ⟨[]⟩ "France").1.isSome = true
      ∧ (cachedLoad constReadCSV (cachedLoad constReadCSV ⟨[]⟩ "France").2.1 "France").1 =
          (cachedLoad constReadCSV ⟨[]⟩ "France").1
      ∧ (cachedLoad constReadCSV
          (cachedLoad constReadCSV ⟨[]⟩ "France").2.1 "France").2.2 = 0) :=
  ⟨by decide, c7_cache_idempotent constReadCSV "France" (by decide)⟩

/-! ### Claim C8: dropping `Tenure` is frame-preserving -/

/-- Dropping `Tenure` leaves the churn-rate string unchanged. -/
theorem rateStr_dropTenure (df : DF) : rateStr (dropCol "Tenure" df) = rateStr df := by
  unfold rateStr
  rw [colVals_dropCol "Tenure" "Exited" (by decide) df]

/-- Dropping `Tenure` leaves the metrics unchanged. -/
theorem metricSects_dropTenure (df : DF) :
    metricSects (dropCol "Tenure" df) = metricSects df := by
  unfold metricSects
  rw [colVals_dropCol "Tenure" "Exited" (by decide) df, rows_length_dropCol,
    rateStr_dropTenure]

/-- Dropping `Tenure` leaves the churn-distribution chart unchanged. -/
theorem churnDistSect_dropTenure (df : DF) :
    churnDistSect (dropCol "Tenure" df) = churnDistSect df := by
  unfold churnDistSect
  rw [colVals_dropCol "Tenure" "Exited" (by decide) df]

/-- Dropping `Tenure` leaves the gender chart unchanged. -/
theorem genderSect_dropTenure (df : DF) :
    genderSect (dropCol "Tenure" df) = genderSect df := by
  unfold genderSect
  rw [colVals_dropCol "Tenure" "Gender" (by decide) df,
    colVals_dropCol "Tenure" "Exited" (by decide) df]
  by_cases h : "Gender" ∈ df.cols
  · rw [if_pos ((mem_cols_dropCol _ _ df).mpr ⟨h, by decide⟩), if_pos h]
  · rw [if_neg (fun hc => h ((mem_cols_dropCol _ _ df).mp hc).1), if_neg h]

/-- Dropping `Tenure` leaves the age box plot unchanged. -/
theorem ageSect_dropTenure (df : DF) :
    ageSect (dropCol "Tenure" df) = ageSect df := by
  unfold ageSect
  rw [colVals_dropCol "Tenure" "Age" (by decide) df,
    colVals_dropCol "Tenure" "Exited" (by decide) df]
  by_cases h : "Age" ∈ df.cols
  · rw [if_pos ((mem_cols_dropCol _ _ df).mpr ⟨h, by decide⟩), if_pos h]
  · rw [if_neg (fun hc => h ((mem_cols_dropCol _ _ df).mp hc).1), if_neg h]

/-- Dropping `Tenure` leaves the credit-score chart unchanged. -/
theorem creditSect_dropTenure (df : DF) :
    creditSect (dropCol "Tenure" df) = creditSect df := by
  unfold creditSect
  rw [colVals_dropCol "Tenure" "CreditScore" (by decide) df,
    colVals_dropCol "Tenure" "Exited" (by decide) df]
  by_cases h : "CreditScore" ∈ df.cols
  · rw [if_pos ((mem_cols_dropCol _ _ df).mpr ⟨h, by decide⟩), if_pos h]
  · rw [if_neg (fun hc => h ((mem_cols_dropCol _ _ df).mp hc).1), if_neg h]

/-- Dropping `Tenure` leaves the salary box plot unchanged. -/
theorem salaryBoxSect_dropTenure (df : DF) :
    salaryBoxSect (dropCol "Tenure" df) = salaryBoxSect df := by
  unfold salaryBoxSect
  rw [colVals_dropCol "Tenure" "AgeGroup" (by decide) df,
    colVals_dropCol "Tenure" "EstimatedSalary" (by decide) df]
  by_cases h : ("AgeGroup" ∈ df.cols ∧ "EstimatedSalary" ∈ df.cols)
  · rw [if_pos ⟨(mem_cols_dropCol _ _ df).mpr ⟨h.1, by decide⟩,
      (mem_cols_dropCol _ _ df).mpr ⟨h.2, by decide⟩⟩, if_pos h]
  · rw [if_neg (fun hc => h ⟨((mem_cols_dropCol _ _ df).mp hc.1).1,
      ((mem_cols_dropCol _ _ df).mp hc.2).1⟩), if_neg h]

/-- Dropping `Tenure` leaves the pie chart unchanged. -/
theorem pieSects_dropTenure (df : DF) :
    pieSects (dropCol "Tenure" df) = pieSects df := by
  unfold pieSects
  rw [colVals_dropCol "Tenure" "Exited" (by decide) df]

/-- Dropping `Tenure` leaves the credit-score-category chart unchanged. -/
theorem cscSect_dropTenure (df : DF) :
    cscSect (dropCol "Tenure" df) = cscSect df := by
  unfold cscSect
  rw [colVals_dropCol "Tenure" "CreditScoreCategory" (by decide) df,
    colVals_dropCol "Tenure" "Exited" (by decide) df]
  by_cases h : "CreditScoreCategory" ∈ df.cols
  · rw [if_pos ((mem_cols_dropCol _ _ df).mpr ⟨h, by decide⟩), if_pos h]
  · rw [if_neg (fun hc => h ((mem_cols_dropCol _ _ df).mp hc).1), if_neg h]

/-- After dropping `Tenure` there is no tenure section. -/
theorem tenureSect_dropTenure (df : DF) :
    tenureSect (dropCol "Tenure" df) = [] := by
  unfold tenureSect
  rw [if_neg (fun hc => ((mem_cols_dropCol _ _ df).mp hc).2 rfl)]

/-- Dropping `Tenure` leaves the group keys unchanged. -/
theorem groupKeys_dropTenure (df : DF) :
    groupKeys (dropCol "Tenure" df) = groupKeys df := by
  unfold groupKeys dropCol
  congr 1
  rw [List.filterMap_map]
  exact List.filterMap_congr (fun r _ => by
    simp only [Function.comp_apply,
      lookup_filter_ne "Tenure" "AgeGroup" (by decide) r,
      lookup_filter_ne "Tenure" "Card Type" (by decide) r])

/-- Dropping `Tenure` shrinks each group's rows cell-wise but keeps them. -/
theorem rowsForPair_dropTenure (df : DF) (a c : Val) :
    rowsForPair (dropCol "Tenure" df) a c =
      (rowsForPair df a c).map (fun r => r.filter (fun p => !(p.1 == "Tenure"))) := by
  unfold rowsForPair dropCol
  rw [List.filter_map]
  congr 1
  apply List.filter_congr
  intro r _
  simp only [Function.comp_apply,
    lookup_filter_ne "Tenure" "AgeGroup" (by decide) r,
    lookup_filter_ne "Tenure" "Card Type" (by decide) r]

/-- Dropping `Tenure` leaves each group's salary cells unchanged. -/
theorem groupSalaries_dropTenure (df : DF) (a c : Val) :
    groupSalaries (dropCol "Tenure" df) a c = groupSalaries df a c := by
  unfold groupSalaries
  rw [rowsForPair_dropTenure, List.filterMap_map]
  congr 1
  exact List.filterMap_congr (fun r _ => by
    simp only [Function.comp_apply,
      lookup_filter_ne "Tenure" "EstimatedSalary" (by decide) r])

/-- Dropping `Tenure` leaves the grouped aggregation unchanged. -/
theorem grouped_df_dropTenure (df : DF) :
    grouped_df (dropCol "Tenure" df) = grouped_df df := by
  unfold grouped_df
  rw [groupKeys_dropTenure]
  by_cases h : "EstimatedSalary" ∈ df.cols
  · rw [if_pos ((mem_cols_dropCol _ _ df).mpr ⟨h, by decide⟩), if_pos h]
    have hfun : (fun p : Val × Val =>
          (p.1, p.2, listMean (groupSalaries (dropCol "Tenure" df) p.1 p.2)))
        = (fun p : Val × Val => (p.1, p.2, listMean (groupSalaries df p.1 p.2))) := by
      funext p
      rw [groupSalaries_dropTenure]
    rw [hfun]
  · rw [if_neg (fun hc => h ((mem_cols_dropCol _ _ df).mp hc).1), if_neg h]

/-- Dropping `Tenure` leaves the grouped-bar step unchanged. -/
theorem barSect_dropTenure (df : DF) :
    barSect (dropCol "Tenure" df) = barSect df := by
  unfold barSect
  rw [grouped_df_dropTenure]
  by_cases h : ("AgeGroup" ∈ df.cols ∧ "Card Type" ∈ df.cols)
  · rw [if_pos ⟨(mem_cols_dropCol _ _ df).mpr ⟨h.1, by decide⟩,
      (mem_cols_dropCol _ _ df).mpr ⟨h.2, by decide⟩⟩, if_pos h]
  · rw [if_neg (fun hc => h ⟨((mem_cols_dropCol _ _ df).mp hc.1).1,
      ((mem_cols_dropCol _ _ df).mp hc.2).1⟩), if_neg h]

/-- Dropping `Tenure` leaves the salary means unchanged. -/
theorem avgSalaryOf_dropCol_tenure (sub : DF) :
    avgSalaryOf (dropCol "Tenure" sub) = avgSalaryOf sub := by
  unfold avgSalaryOf
  rw [colVals_dropCol "Tenure" "EstimatedSalary" (by decide) sub]
  by_cases h : "EstimatedSalary" ∈ sub.cols
  · rw [if_pos ((mem_cols_dropCol _ _ sub).mpr ⟨h, by decide⟩), if_pos h]
  · rw [if_neg (fun hc => h ((mem_cols_dropCol _ _ sub).mp hc).1), if_neg h]

/-- Dropping `Tenure` leaves the most-frequent-category fields unchanged. -/
theorem topCategory_dropCol_tenure (sub : DF) (c : String) (hc : c ≠ "Tenure") :
    topCategory (dropCol "Tenure" sub) c = topCategory sub c := by
  unfold topCategory
  rw [colVals_dropCol "Tenure" c hc sub]
  by_cases h : c ∈ sub.cols
  · rw [if_pos ((mem_cols_dropCol _ _ sub).mpr ⟨h, hc⟩), if_pos h]
  · rw [if_neg (fun hcc => h ((mem_cols_dropCol _ _ sub).mp hcc).1), if_neg h]

/-- Dropping `Tenure` leaves the insights panel unchanged. -/
theorem insightsSect_dropTenure (c : String) (df : DF) :
    insightsSect c (dropCol "Tenure" df) = insightsSect c df := by
  unfold insightsSect
  rw [churnedOf_dropCol "Tenure" (by decide) df,
    retainedOf_dropCol "Tenure" (by decide) df,
    avgSalaryOf_dropCol_tenure (churnedOf df), avgSalaryOf_dropCol_tenure (retainedOf df),
    topCategory_dropCol_tenure (churnedOf df) "Card Type" (by decide),
    topCategory_dropCol_tenure (churnedOf df) "AgeGroup" (by decide),
    rateStr_dropTenure df]

/-- The overview section holds nothing the frame property compares. -/
theorem overview_filter_kept (c : String) (d : DF) :
    (overviewSects c d).filter Sect.keptNonTenure = [] := rfl

/-- The tenure section holds nothing the frame property compares. -/
theorem tenureSect_filter_kept (df : DF) :
    (tenureSect df).filter Sect.keptNonTenure = [] := by
  unfold tenureSect
  split <;> rfl

/-- With `Tenure` absent there is no tenure chart in the trace. -/
theorem any_tenure_false_of_absent (country : String) (df : DF)
    (hE : "Exited" ∈ df.cols) (hT : "Tenure" ∉ df.cols) :
    (renderApp country df).1.any Sect.isTenure = false := by
  rcases renderApp_cases country df hE with ⟨f, hbar, hr⟩ |
      ⟨bs, hbs, ⟨f, hins, hr⟩ | ⟨ins, hins, hr⟩⟩
  · rw [hr]
    simp [secs1, preSections, overviewSects, metricSects, churnDistSect, genderSect,
      ageSect, creditSect, salaryBoxSect, List.any_append, any_ite, Sect.isTenure]
  · rcases barSect_guard_shape df bs hbs with ⟨-, hsh⟩ | ⟨-, -, g, -, hsh⟩ <;> subst hsh <;>
      rw [hr] <;>
      simp [secs1, preSections, overviewSects, metricSects, churnDistSect, genderSect,
        ageSect, creditSect, salaryBoxSect, pieSects, tenureSect, cscSect,
        List.any_append, any_ite, Sect.isTenure, hT]
  · obtain ⟨aC, aR, tc, ca, hshape⟩ := insightsSect_ok_shape country df ins hins
    subst hshape
    rcases barSect_guard_shape df bs hbs with ⟨-, hsh⟩ | ⟨-, -, g, -, hsh⟩ <;> subst hsh <;>
      rw [hr] <;>
      simp [secs1, preSections, overviewSects, metricSects, churnDistSect, genderSect,
        ageSect, creditSect, salaryBoxSect, pieSects, tenureSect, cscSect, postSections,
        List.any_append, any_ite, Sect.isTenure, hT]

/-- C8: for a table with `Exited`, removing the `Tenure` column removes the
tenure chart and changes nothing in the compared sections — metrics, the
other charts, the pie chart, and the insights panel — nor the fault outcome. -/
theorem c8_tenure_frame (country : String) (df : DF) (hE : "Exited" ∈ df.cols) :
    ("Tenure" ∉ df.cols → (renderApp country df).1.any Sect.isTenure = false)
    ∧ (renderApp country (dropCol "Tenure" df)).1.any Sect.isTenure = false
    ∧ (renderApp country (dropCol "Tenure" df)).1.filter Sect.keptNonTenure =
        (renderApp country df).1.filter Sect.keptNonTenure
    ∧ (renderApp country (dropCol "Tenure" df)).2 = (renderApp country df).2 := by
  have hE' : "Exited" ∈ (dropCol "Tenure" df).cols :=
    (mem_cols_dropCol _ _ df).mpr ⟨hE, by decide⟩
  have hT' : "Tenure" ∉ (dropCol "Tenure" df).cols :=
    fun hc => ((mem_cols_dropCol _ _ df).mp hc).2 rfl
  refine ⟨fun hT => any_tenure_false_of_absent country df hE hT,
    any_tenure_false_of_absent country (dropCol "Tenure" df) hE' hT', ?_, ?_⟩
  · cases hb : barSect df with
    | error f =>
      rw [renderApp_bar_error_eq country df hE f hb,
        renderApp_bar_error_eq country (dropCol "Tenure" df) hE' f
          ((barSect_dropTenure df).trans hb)]
      simp only [secs1, metricSects_dropTenure, churnDistSect_dropTenure,
        genderSect_dropTenure, ageSect_dropTenure, creditSect_dropTenure,
        salaryBoxSect_dropTenure, List.filter_append, overview_filter_kept]
    | ok bs =>
      cases hi : insightsSect country df with
      | error f =>
        rw [renderApp_insights_error_eq country df hE bs hb f hi,
          renderApp_insights_error_eq country (dropCol "Tenure" df) hE' bs
            ((barSect_dropTenure df).trans hb) f
            ((insightsSect_dropTenure country df).trans hi)]
        simp only [secs1, metricSects_dropTenure, churnDistSect_dropTenure,
          genderSect_dropTenure, ageSect_dropTenure, creditSect_dropTenure,
          salaryBoxSect_dropTenure, pieSects_dropTenure, cscSect_dropTenure,
          tenureSect_dropTenure, List.filter_append, overview_filter_kept,
          tenureSect_filter_kept, List.filter_nil, List.append_nil, List.nil_append]
      | ok ins =>
        rw [renderApp_ok_eq country df hE bs hb ins hi,
          renderApp_ok_eq country (dropCol "Tenure" df) hE' bs
            ((barSect_dropTenure df).trans hb) ins
            ((insightsSect_dropTenure country df).trans hi)]
        simp only [secs1, metricSects_dropTenure, churnDistSect_dropTenure,
          genderSect_dropTenure, ageSect_dropTenure, creditSect_dropTenure,
          salaryBoxSect_dropTenure, pieSects_dropTenure, cscSect_dropTenure,
          tenureSect_dropTenure, List.filter_append, overview_filter_kept,
          tenureSect_filter_kept, List.filter_nil, List.append_nil, List.nil_append]
  · cases hb : barSect df with
    | error f =>
      rw [renderApp_bar_error_eq country df hE f hb,
        renderApp_bar_error_eq country (dropCol "Tenure" df) hE' f
          ((barSect_dropTenure df).trans hb)]
    | ok bs =>
      cases hi : insightsSect country df with
      | error f =>
        rw [renderApp_insights_error_eq country df hE bs hb f hi,
          renderApp_insights_error_eq country (dropCol "Tenure" df) hE' bs
            ((barSect_dropTenure df).trans hb) f
            ((insightsSect_dropTenure country df).trans hi)]
      | ok ins =>
        rw [renderApp_ok_eq country df hE bs hb ins hi,
          renderApp_ok_eq country (dropCol "Tenure" df) hE' bs
            ((barSect_dropTenure df).trans hb) ins
            ((insightsSect_dropTenure country df).trans hi)]

/-- A table that has both `Exited` and `Tenure`. -/
def dfWithTenure : DF :=
  ⟨["Exited", "Tenure"], [[("Exited", .num 1), ("Tenure", .num 3)]]⟩

/-- Witness for C8 at a concrete table with a `Tenure` column. -/
theorem c8_tenure_frame_witness :
    ("Exited" ∈ dfWithTenure.cols) ∧
    ((renderApp "France" (dropCol "Tenure" dfWithTenure)).1.any Sect.isTenure = false
      ∧ (renderApp "France" (dropCol "Tenure" dfWithTenure)).1.filter Sect.keptNonTenure =
          (renderApp "France" dfWithTenure).1.filter Sect.keptNonTenure
      ∧ (renderApp "France" (dropCol "Tenure" dfWithTenure)).2 =
          (renderApp "France" dfWithTenure).2) := by
  have h := c8_tenure_frame "France" dfWithTenure (by decide)
  exact ⟨by decide, h.2.1, h.2.2.1, h.2.2.2⟩

/-! ### Claim C2: missing `Exited` halts the render -/

/-- C2: for every loaded table without the `Exited` column, the run is
exactly the pre-check output followed by the user-visible error message:
no metric, no chart, no insights panel, no later section, and no fault. -/
theorem c2_missing_exited_halts (country : String) (df : DF)
    (h : "Exited" ∉ df.cols) :
    renderApp country df = (preSections ++ [.errorMsg exitedErrorText], none)
    ∧ (renderApp country df).1.any Sect.isMetric = false
    ∧ (renderApp country df).1.any Sect.isChart = false
    ∧ (renderApp country df).1.any Sect.isInsights = false := by
  have he : renderApp country df = (preSections ++ [.errorMsg exitedErrorText], none) := by
    unfold renderApp
    rw [if_neg h]
  refine ⟨he, ?_, ?_, ?_⟩ <;> rw [he] <;> rfl

/-- A concrete table lacking `Exited`. -/
def dfNoExited : DF := ⟨["CustomerId"], [[("CustomerId", .num 7)]]⟩

/-- Witness for C2 at a concrete table lacking `Exited`. -/
theorem c2_missing_exited_halts_witness :
    "Exited" ∉ dfNoExited.cols ∧
      renderApp "France" dfNoExited = (preSections ++ [.errorMsg exitedErrorText], none) :=
  ⟨by decide, (c2_missing_exited_halts "France" dfNoExited (by decide)).1⟩

/-! ### Claim C9: the input surface -/

/-- C9 (code evaluation): every run creates exactly two country select
boxes, because the script calls `st.sidebar.selectbox` both at line 13 and
at line 31 — not the single dropdown the specification describes. -/
theorem c9_two_selectboxes (country : String) (df : DF) :
    ((renderApp country df).1.filter Sect.isSelectbox).length = 2 := by
  by_cases hE : "Exited" ∈ df.cols
  · rcases renderApp_cases country df hE with ⟨f, hbar, hr⟩ |
      ⟨bs, hbs, ⟨f, hins, hr⟩ | ⟨ins, hins, hr⟩⟩
    · rw [hr]
      simp [secs1, preSections, overviewSects, metricSects, churnDistSect, genderSect,
        ageSect, creditSect, salaryBoxSect, List.filter_append, filter_ite,
        Sect.isSelectbox]
    · rcases barSect_ok_shape df bs hbs with hsh | ⟨g, hg, hsh⟩ <;> subst hsh <;>
        rw [hr] <;>
        simp [secs1, preSections, overviewSects, metricSects, churnDistSect, genderSect,
          ageSect, creditSect, salaryBoxSect, pieSects, tenureSect, cscSect,
          List.filter_append, filter_ite, Sect.isSelectbox]
    · obtain ⟨aC, aR, tc, ca, hshape⟩ := insightsSect_ok_shape country df ins hins
      rcases barSect_ok_shape df bs hbs with hsh | ⟨g, hg, hsh⟩ <;> subst hsh <;>
        subst hshape <;> rw [hr] <;>
        simp [secs1, preSections, overviewSects, metricSects, churnDistSect, genderSect,
          ageSect, creditSect, salaryBoxSect, pieSects, tenureSect, cscSect, postSections,
          List.filter_append, filter_ite, Sect.isSelectbox]
  · have he : renderApp country df = (preSections ++ [.errorMsg exitedErrorText], none) := by
      unfold renderApp
      rw [if_neg hE]
    rw [he]
    rfl

/-! ### Claim C3: the displayed churn rate -/

/-- The one churn-rate metric string the run displays. -/
theorem filterMap_rate_renderApp (country : String) (df : DF)
    (hE : "Exited" ∈ df.cols) :
    (renderApp country df).1.filterMap Sect.rateOf = [rateStr df] := by
  rcases renderApp_cases country df hE with ⟨f, hbar, hr⟩ |
      ⟨bs, hbs, ⟨f, hins, hr⟩ | ⟨ins, hins, hr⟩⟩
  · rw [hr]
    simp [secs1, preSections, overviewSects, metricSects, churnDistSect, genderSect,
      ageSect, creditSect, salaryBoxSect, List.filterMap_append, filterMap_ite,
      Sect.rateOf]
  · rcases barSect_ok_shape df bs hbs with hsh | ⟨g, hg, hsh⟩ <;> subst hsh <;>
      rw [hr] <;>
      simp [secs1, preSections, overviewSects, metricSects, churnDistSect, genderSect,
        ageSect, creditSect, salaryBoxSect, pieSects, tenureSect, cscSect,
        List.filterMap_append, filterMap_ite, Sect.rateOf]
  · obtain ⟨aC, aR, tc, ca, hshape⟩ := insightsSect_ok_shape country df ins hins
    rcases barSect_ok_shape df bs hbs with hsh | ⟨g, hg, hsh⟩ <;> subst hsh <;>
      subst hshape <;> rw [hr] <;>
      simp [secs1, preSections, overviewSects, metricSects, churnDistSect, genderSect,
        ageSect, creditSect, salaryBoxSect, pieSects, tenureSect, cscSect, postSections,
        List.filterMap_append, filterMap_ite, Sect.rateOf]

/-- C3: on a nonempty well-formed table whose `Exited` cells are all 0 or 1,
the run displays exactly one churn-rate string, and it is
100 × (number of churned rows) / (number of rows) formatted to two decimals. -/
theorem c3_churn_rate_correct (country : String) (df : DF) (hwf : df.WF)
    (hE : "Exited" ∈ df.cols) (hne : df.rows ≠ [])
    (h01 : ∀ v ∈ colVals df "Exited", v = .num 0 ∨ v = .num 1) :
    (renderApp country df).1.filterMap Sect.rateOf =
      [fmt2 (100 * ((churnedOf df).rows.length : ℚ) / df.rows.length)] := by
  rw [filterMap_rate_renderApp country df hE]
  have hlen : (colVals df "Exited").length = df.rows.length :=
    length_colVals df "Exited" hwf hE
  have hnl : (numsOf (colVals df "Exited")).length = df.rows.length := by
    rw [length_numsOf_01 _ h01, hlen]
  have hnz : df.rows.length ≠ 0 := fun h0 => hne (List.length_eq_zero.mp h0)
  have hnums_ne : numsOf (colVals df "Exited") ≠ [] := by
    intro h0
    rw [h0] at hnl
    exact hnz hnl.symm
  have hcount : (colVals df "Exited").count (.num 1) = (churnedOf df).rows.length :=
    count_filterMap_lookup df.rows "Exited" (.num 1)
  have hsum : (numsOf (colVals df "Exited")).sum = ((churnedOf df).rows.length : ℚ) := by
    rw [sum_numsOf_01 _ h01, hcount]
  unfold rateStr meanOpt
  rw [if_neg hnums_ne]
  simp only [hsum, hnl]
  congr 2
  have hq : (df.rows.length : ℚ) ≠ 0 := Nat.cast_ne_zero.mpr hnz
  field_simp
  ring

/-- A 1000-row table with 203 churned customers (the example of the spec). -/
def dfRate : DF :=
  ⟨["Exited"],
   List.replicate 203 [("Exited", .num 1)] ++ List.replicate 797 [("Exited", .num 0)]⟩

/-- Filtering a replicated list by a predicate its element satisfies. -/
theorem filter_replicate_pos {α : Type} (p : α → Bool) (a : α) (h : p a = true)
    (n : ℕ) : (List.replicate n a).filter p = List.replicate n a := by
  induction n with
  | zero => rfl
  | succ n ih => simp [List.replicate_succ, List.filter_cons, h, ih]

/-- Filtering a replicated list by a predicate its element falsifies. -/
theorem filter_replicate_neg {α : Type} (p : α → Bool) (a : α) (h : p a = false)
    (n : ℕ) : (List.replicate n a).filter p = [] := by
  induction n with
  | zero => rfl
  | succ n ih => simp [List.replicate_succ, List.filter_cons, h, ih]

/-- The example table is well formed. -/
theorem dfRate_wf : dfRate.WF := by
  intro r hr
  rcases List.mem_append.mp hr with h | h <;>
    rw [List.eq_of_mem_replicate h] <;> rfl

/-- The example table's `Exited` cells are all 0 or 1. -/
theorem dfRate_01 : ∀ v ∈ colVals dfRate "Exited", v = .num 0 ∨ v = .num 1 := by
  intro v hv
  obtain ⟨r, hr, hl⟩ := List.mem_filterMap.mp hv
  rcases List.mem_append.mp hr with h | h <;> rw [List.eq_of_mem_replicate h] at hl
  · right
    simpa [List.lookup] using hl.symm
  · left
    simpa [List.lookup] using hl.symm

/-- The example table has 1000 rows. -/
theorem dfRate_len : dfRate.rows.length = 1000 := by
  show (List.replicate 203 _ ++ List.replicate 797 _).length = 1000
  rw [List.length_append, List.length_replicate, List.length_replicate]

/-- The example table has 203 churned rows. -/
theorem dfRate_churned_len : (churnedOf dfRate).rows.length = 203 := by
  show ((List.replicate 203 [("Exited", Val.num 1)]
      ++ List.replicate 797 [("Exited", Val.num 0)]).filter
      (fun r => List.lookup "Exited" r == some (Val.num 1))).length = 203
  rw [List.filter_append,
    filter_replicate_pos (fun r : Row => List.lookup "Exited" r == some (Val.num 1))
      [("Exited", Val.num 1)] (by decide) 203,
    filter_replicate_neg (fun r : Row => List.lookup "Exited" r == some (Val.num 1))
      [("Exited", Val.num 0)] (by decide) 797,
    List.append_nil, List.length_replicate]

/-- Witness for C3: the example table (1000 rows, 203 churned) displays the
churn rate "20.30". -/
theorem c3_churn_rate_correct_witness :
    dfRate.WF ∧ "Exited" ∈ dfRate.cols ∧ dfRate.rows ≠ [] ∧
      (∀ v ∈ colVals dfRate "Exited", v = .num 0 ∨ v = .num 1) ∧
      (renderApp "France" dfRate).1.filterMap Sect.rateOf = ["20.30"] := by
  have hne : dfRate.rows ≠ [] := by
    intro h0
    have hl := dfRate_len
    rw [h0] at hl
    exact absurd hl (by decide)
  refine ⟨dfRate_wf, by decide, hne, dfRate_01, ?_⟩
  rw [c3_churn_rate_correct "France" dfRate dfRate_wf (by decide) hne dfRate_01,
    dfRate_churned_len, dfRate_len]
  have harg : (100 * ((203:ℕ):ℚ) / ((1000:ℕ):ℚ)) * 100 = 2030 := by
    push_cast
    norm_num
  have hre : roundHalfEven (100 * ((203:ℕ):ℚ) / ((1000:ℕ):ℚ) * 100) = 2030 := by
    rw [harg]
    simp only [roundHalfEven]
    norm_num
  simp only [fmt2]
  rw [hre]
  decide

end Churn
